import Mathlib

/- Verification development for the terminal pacman game (src/main.cpp).
   The definitions below are a shallow embedding of the program's data model
   and algorithms; the theorems settle the specification claims against it.
   C++ size_t arithmetic is modelled as Nat with explicit reduction modulo
   2 ^ 64 at every operation where the program can wrap. -/

namespace Pacman

/-- Modulus of the C++ type size_t (64 bits on the reference platform). -/
def SZ : Nat := 2 ^ 64

/-- Addition of two size_t values, wrapping modulo 2 ^ 64. -/
def szAdd (a b : Nat) : Nat := (a + b) % SZ

/-- Subtraction of size_t values: a - b computed modulo 2 ^ 64 (underflow at
zero wraps to huge values exactly as the machine type does). -/
def szSub (a b : Nat) : Nat := (a + (SZ - b % SZ)) % SZ

/-- The DIRECTION enumeration of main.cpp (UP=0, DOWN=1, LEFT=2, RIGHT=3). -/
inductive DIRECTION where
  | UP
  | DOWN
  | LEFT
  | RIGHT
deriving DecidableEq

/-- The ENEMY_TYPE enumeration of main.cpp. -/
inductive ENEMY_TYPE where
  | BLINKY
  | PINKY
  | INKY
  | CLYDE
deriving DecidableEq

/-- The ENEMY_MODE enumeration of main.cpp. -/
inductive ENEMY_MODE where
  | SCATTER
  | NORMAL
  | FRIGHTENED
deriving DecidableEq

open DIRECTION ENEMY_TYPE ENEMY_MODE

/-- The struct player of main.cpp.  Defaults mirror the in-class initializers
and the value-initialization performed by the designated-initializer list in
main (unmentioned members start at zero). -/
structure Player where
  pos : Nat × Nat
  direction : DIRECTION
  current_anim_frame : Nat := 1
  score : Nat := 0
  max_score : Nat := 0
  is_over : Bool := false
  portal_1 : Nat × Nat := (0, 0)
  portal_2 : Nat × Nat := (0, 0)
deriving DecidableEq

/-- player::icons, indexed by the DIRECTION enum value
(UP=0 gives ('v','o'), DOWN=1 gives ('^','o'), LEFT=2 gives ('>','o'),
RIGHT=3 gives ('<','o')), exactly as the initializer list in main.cpp. -/
def player_icons : DIRECTION → Char × Char
  | UP => ('v', 'o')
  | DOWN => ('^', 'o')
  | LEFT => ('>', 'o')
  | RIGHT => ('<', 'o')

/-- player::has_no_collision: the cell characters the player may step onto. -/
def player_has_no_collision (c : Char) : Bool :=
  [' ', '.', '@', '[', ']', 'B', 'P', 'I', 'C'].contains c

/-- The single cell index player::move reads for a given player state: one
step from the current position in the facing direction, computed in size_t
arithmetic (so moving up at row 0 produces the wrapped index 2^64 - 1). -/
def player_move_read (p : Player) : Nat × Nat :=
  match p.direction with
  | UP => (szSub p.pos.1 1, p.pos.2)
  | DOWN => (szAdd p.pos.1 1, p.pos.2)
  | LEFT => (p.pos.1, szSub p.pos.2 1)
  | RIGHT => (p.pos.1, szAdd p.pos.2 1)

/-- player::move on the game map: step one cell in the facing direction when
the destination cell is passable for the player, otherwise stay.  The map is
modelled as a total function on indices; the cell inspected is exactly
player_move_read. -/
def player_move (gm : Nat → Nat → Char) (p : Player) : Player :=
  if player_has_no_collision (gm (player_move_read p).1 (player_move_read p).2)
  then { p with pos := player_move_read p } else p

/-- The struct enemy of main.cpp.  Unmentioned members of the aggregate
initializers in main are value-initialized (zero), giving the defaults. -/
structure Enemy where
  pos : Nat × Nat
  icon : Char := Char.ofNat 0
  moved : Bool := false
  character : ENEMY_TYPE := BLINKY
  mode : ENEMY_MODE
  prev_move : DIRECTION := UP
  target : Nat × Nat := (0, 0)
deriving DecidableEq

/-- enemy::set_character: stores the personality tag and the matching glyph. -/
def set_character (e : Enemy) (t : ENEMY_TYPE) : Enemy :=
  { e with
    character := t,
    icon :=
      match t with
      | BLINKY => 'B'
      | PINKY => 'P'
      | INKY => 'I'
      | CLYDE => 'C' }

/-- enemy::manhattanDistance.  The C++ code routes both coordinates through a
cast to int; for coordinates below 2 ^ 31 (the only values a 32-by-40 maze
ever produces, and the domain every theorem below restricts to) that cast is
the identity and the function is the plain Manhattan distance computed here. -/
def manhattanDistance (p1 p2 : Nat × Nat) : Nat :=
  ((p1.1 : Int) - (p2.1 : Int)).natAbs + ((p1.2 : Int) - (p2.2 : Int)).natAbs

/-- enemy::calculate_target, returning the value left in this->target.
Faithful to the source, including the stray break in the NORMAL/CLYDE case:
the distance-based branch after it is unreachable, so in chase mode Clyde's
target is left unchanged.  In FRIGHTENED mode no assignment happens either. -/
def calculate_target (e : Enemy) (width height : Nat) (pacman : Player)
    (blinky : Enemy) : Nat × Nat :=
  match e.mode with
  | SCATTER =>
      match e.character with
      | BLINKY => (1, szSub width 2)
      | PINKY => (1, 1)
      | INKY => (szSub width 2, szSub height 2)
      | CLYDE => (szSub height 2, 1)
  | NORMAL =>
      match e.character with
      | BLINKY => pacman.pos
      | PINKY =>
          match pacman.direction with
          | UP => (szSub pacman.pos.1 4, szSub pacman.pos.2 4)
          | LEFT => (szSub pacman.pos.1 4, pacman.pos.2)
          | DOWN => (pacman.pos.1, szAdd pacman.pos.2 4)
          | RIGHT => (szAdd pacman.pos.1 4, pacman.pos.2)
      | INKY =>
          let ip : Nat × Nat :=
            match pacman.direction with
            | UP => (szSub pacman.pos.1 2, szSub pacman.pos.2 2)
            | DOWN => (pacman.pos.1, szAdd pacman.pos.2 2)
            | LEFT => (szSub pacman.pos.1 2, pacman.pos.2)
            | RIGHT => (szAdd pacman.pos.1 2, pacman.pos.2)
          (szAdd ip.1 ((blinky.pos.1 : Int) - (ip.1 : Int)).natAbs,
           szAdd ip.2 ((blinky.pos.2 : Int) - (ip.2 : Int)).natAbs)
      | CLYDE => e.target
  | FRIGHTENED => e.target

/-- A chase-mode Clyde far from the player, with a stale target, used to
exhibit the unreachable distance branch. -/
def clyde_c2 : Enemy :=
  { pos := (20, 20), icon := 'C', character := CLYDE, mode := NORMAL,
    prev_move := UP, target := (5, 5) }

/-- Player state for the Clyde check: the player sits at (1,1), far away. -/
def pac_c2 : Player := { pos := (1, 1), direction := UP }

/-- Claim C2: in Normal mode Clyde's target should be the player's cell when
the Manhattan distance exceeds 8.  The code instead hits a stray break before
the distance test, so the target is left at its stale value (5,5) even though
the distance is 38 > 8 and the player sits at (1,1). -/
theorem C2_clyde_target_dead_code :
    calculate_target clyde_c2 40 32 pac_c2 clyde_c2 = (5, 5) ∧
    manhattanDistance clyde_c2.pos pac_c2.pos = 38 ∧
    8 < 38 ∧ ((5, 5) : Nat × Nat) ≠ pac_c2.pos := by
  refine ⟨rfl, by decide, by norm_num, by decide⟩

/-- A chase-mode Pinky, used to exhibit the rotated offset. -/
def pinky_c3 : Enemy :=
  { pos := (2, 2), icon := 'P', character := PINKY, mode := NORMAL,
    prev_move := UP, target := (0, 0) }

/-- Player state for the Pinky check: at (10,10) facing LEFT, i.e. moving
toward smaller column indices (player::move decrements pos.second on LEFT). -/
def pac_c3 : Player := { pos := (10, 10), direction := LEFT }

/-- Claim C3: for a player facing left the claimed target is 4 tiles left,
cell (10,6).  The code instead computes (6,10), which is 4 tiles up: it
subtracts from the row coordinate, contradicting its own comment that the
target is four tiles straight ahead of the player. -/
theorem C3_pinky_left_offset_rotated :
    calculate_target pinky_c3 40 32 pac_c3 pinky_c3 = (6, 10) ∧
    ((6, 10) : Nat × Nat) ≠ (10, 6) := by
  refine ⟨rfl, by decide⟩

/-- The player standing at row 0, column 5, facing up. -/
def pac_c6 : Player := { pos := (0, 5), direction := UP }

/-- Claim C6: moving up at row 0 should not underflow, but player::move
computes pos.first - 1 in size_t, reads row index 2^64 - 1, far outside the
32-row grid.  player_move reads exactly the cell player_move_read names. -/
theorem C6_player_move_underflow_read :
    player_move_read pac_c6 = (2 ^ 64 - 1, 5) ∧ 32 ≤ 2 ^ 64 - 1 := by
  constructor
  · show (szSub 0 1, 5) = (2 ^ 64 - 1, 5)
    norm_num [szSub, SZ]
  · norm_num

/-- The set of characters get_map_str keeps in a parsed line. -/
def valid_chars : List Char :=
  ['#', ' ', '*', '|', '-', '~', '.', '[', ']', '@']

/-- The if-else chain get_map_str runs for one raw character: adds 10 to
max_score for '.', 50 for '@', and stores the raw column index of '[' into
portal_2 and of ']' into portal_1 (each occurrence overwrites the previous
value, as the unconditional assignments in the source do).  row is
answer.size() at the time, i the raw index into the line. -/
def parse_player_upd (row i : Nat) (c : Char) (p : Player) : Player :=
  if c = '.' then { p with max_score := p.max_score + 10 }
  else if c = '@' then { p with max_score := p.max_score + 50 }
  else if c = '[' then { p with portal_2 := (row, i) }
  else if c = ']' then { p with portal_1 := (row, i) }
  else p

/-- The per-character loop of get_map_str over one raw line: keeps valid
characters for the stored line and updates the player record per character. -/
def parse_chars (row : Nat) : Nat → List Char → Player → List Char × Player
  | _, [], p => ([], p)
  | i, c :: cs, p =>
      let r := parse_chars row (i + 1) cs (parse_player_upd row i c p)
      ((if valid_chars.contains c then [c] else []) ++ r.1, r.2)

/-- get_map_str of main.cpp on the already-read lines of the map file,
threading the player record through every line; returns the filtered lines
and the updated player. -/
def get_map_str : List (List Char) → Nat → Player → List (List Char) × Player
  | [], _, p => ([], p)
  | l :: ls, row, p =>
      let r1 := parse_chars row 0 l p
      let r2 := get_map_str ls (row + 1) r1.2
      (r1.1 :: r2.1, r2.2)

/-- Number of occurrences of a character in a list. -/
def ccount (c : Char) : List Char → Nat
  | [] => 0
  | ch :: cs => (if ch = c then 1 else 0) + ccount c cs

/-- Total number of occurrences of a character over all rows. -/
def totCount (c : Char) (ls : List (List Char)) : Nat :=
  (ls.map (ccount c)).sum

/-- First-operand-preferring choice on optional positions. -/
def oor (o acc : Option (Nat × Nat)) : Option (Nat × Nat) :=
  match o with
  | none => acc
  | some x => some x

/-- Spec-side definition for the amended claim C9: position of the last
occurrence of c in one row (scanning left to right from raw index i), with
acc the value recorded so far. -/
def last_occ_row (c : Char) (row : Nat) :
    Nat → List Char → Option (Nat × Nat) → Option (Nat × Nat)
  | _, [], acc => acc
  | i, ch :: cs, acc =>
      last_occ_row c row (i + 1) cs (if ch = c then some (row, i) else acc)

/-- Spec-side definition for the amended claim C9: position of the last
occurrence of c over all rows in parse order. -/
def last_occ (c : Char) :
    List (List Char) → Nat → Option (Nat × Nat) → Option (Nat × Nat)
  | [], _, acc => acc
  | l :: ls, row, acc => last_occ c ls (row + 1) (last_occ_row c row 0 l acc)

theorem last_occ_row_shift (c : Char) (row : Nat) :
    ∀ (cs : List Char) (i : Nat) (acc : Option (Nat × Nat)),
      last_occ_row c row i cs acc = oor (last_occ_row c row i cs none) acc := by
  intro cs
  induction cs with
  | nil => intro i acc; rfl
  | cons ch cs ih =>
      intro i acc
      show last_occ_row c row (i + 1) cs (if ch = c then some (row, i) else acc)
        = oor (last_occ_row c row (i + 1) cs (if ch = c then some (row, i) else none)) acc
      rw [ih, ih (i + 1) (if ch = c then some (row, i) else none)]
      by_cases h : ch = c <;>
        cases last_occ_row c row (i + 1) cs none <;> simp [h, oor]

theorem last_occ_shift (c : Char) :
    ∀ (ls : List (List Char)) (row : Nat) (acc : Option (Nat × Nat)),
      last_occ c ls row acc = oor (last_occ c ls row none) acc := by
  intro ls
  induction ls with
  | nil => intro row acc; rfl
  | cons l ls ih =>
      intro row acc
      show last_occ c ls (row + 1) (last_occ_row c row 0 l acc)
        = oor (last_occ c ls (row + 1) (last_occ_row c row 0 l none)) acc
      rw [ih, ih (row + 1) (last_occ_row c row 0 l none),
        last_occ_row_shift c row l 0 acc]
      cases last_occ c ls (row + 1) none <;>
        cases last_occ_row c row 0 l none <;> simp [oor]

theorem upd_max_score (row i : Nat) (c : Char) (p : Player) :
    (parse_player_upd row i c p).max_score
      = p.max_score + (if c = '.' then 10 else if c = '@' then 50 else 0) := by
  by_cases h1 : c = '.'
  · simp [parse_player_upd, h1]
  · by_cases h2 : c = '@'
    · simp [parse_player_upd, h1, h2]
    · by_cases h3 : c = '['
      · simp [parse_player_upd, h1, h2, h3]
      · by_cases h4 : c = ']'
        · simp [parse_player_upd, h1, h2, h3, h4]
        · simp [parse_player_upd, h1, h2, h3, h4]

theorem upd_portal_1 (row i : Nat) (c : Char) (p : Player) :
    (parse_player_upd row i c p).portal_1
      = if c = ']' then (row, i) else p.portal_1 := by
  by_cases h1 : c = '.'
  · simp [parse_player_upd, h1]
  · by_cases h2 : c = '@'
    · simp [parse_player_upd, h1, h2]
    · by_cases h3 : c = '['
      · simp [parse_player_upd, h1, h2, h3]
      · by_cases h4 : c = ']'
        · simp [parse_player_upd, h1, h2, h3, h4]
        · simp [parse_player_upd, h1, h2, h3, h4]

theorem upd_portal_2 (row i : Nat) (c : Char) (p : Player) :
    (parse_player_upd row i c p).portal_2
      = if c = '[' then (row, i) else p.portal_2 := by
  by_cases h1 : c = '.'
  · simp [parse_player_upd, h1]
  · by_cases h2 : c = '@'
    · simp [parse_player_upd, h1, h2]
    · by_cases h3 : c = '['
      · simp [parse_player_upd, h1, h2, h3]
      · by_cases h4 : c = ']'
        · simp [parse_player_upd, h1, h2, h3, h4]
        · simp [parse_player_upd, h1, h2, h3, h4]

theorem parse_chars_max_score (row : Nat) :
    ∀ (cs : List Char) (i : Nat) (p : Player),
      (parse_chars row i cs p).2.max_score
        = p.max_score + 10 * ccount '.' cs + 50 * ccount '@' cs := by
  intro cs
  induction cs with
  | nil =>
      intro i p
      show p.max_score = p.max_score + 10 * ccount '.' [] + 50 * ccount '@' []
      simp [ccount]
  | cons c cs ih =>
      intro i p
      show (parse_chars row (i + 1) cs (parse_player_upd row i c p)).2.max_score
        = p.max_score + 10 * ccount '.' (c :: cs) + 50 * ccount '@' (c :: cs)
      rw [ih, upd_max_score]
      show _ = p.max_score + 10 * ((if c = '.' then 1 else 0) + ccount '.' cs)
        + 50 * ((if c = '@' then 1 else 0) + ccount '@' cs)
      split_ifs with h h2
      · exact absurd (h.symm.trans h2) (by decide)
      all_goals ring

theorem parse_chars_portal_1 (row : Nat) :
    ∀ (cs : List Char) (i : Nat) (p : Player),
      (parse_chars row i cs p).2.portal_1
        = (last_occ_row ']' row i cs none).getD p.portal_1 := by
  intro cs
  induction cs with
  | nil => intro i p; rfl
  | cons c cs ih =>
      intro i p
      show (parse_chars row (i + 1) cs (parse_player_upd row i c p)).2.portal_1
        = (last_occ_row ']' row i (c :: cs) none).getD p.portal_1
      rw [ih, upd_portal_1]
      have locc : last_occ_row ']' row i (c :: cs) none
          = last_occ_row ']' row (i + 1) cs (if c = ']' then some (row, i) else none) := rfl
      rw [locc]
      by_cases h : c = ']'
      · rw [if_pos h, if_pos h,
          last_occ_row_shift ']' row cs (i + 1) (some (row, i))]
        cases last_occ_row ']' row (i + 1) cs none <;> simp [oor]
      · rw [if_neg h, if_neg h]

theorem parse_chars_portal_2 (row : Nat) :
    ∀ (cs : List Char) (i : Nat) (p : Player),
      (parse_chars row i cs p).2.portal_2
        = (last_occ_row '[' row i cs none).getD p.portal_2 := by
  intro cs
  induction cs with
  | nil => intro i p; rfl
  | cons c cs ih =>
      intro i p
      show (parse_chars row (i + 1) cs (parse_player_upd row i c p)).2.portal_2
        = (last_occ_row '[' row i (c :: cs) none).getD p.portal_2
      rw [ih, upd_portal_2]
      have locc : last_occ_row '[' row i (c :: cs) none
          = last_occ_row '[' row (i + 1) cs (if c = '[' then some (row, i) else none) := rfl
      rw [locc]
      by_cases h : c = '['
      · rw [if_pos h, if_pos h,
          last_occ_row_shift '[' row cs (i + 1) (some (row, i))]
        cases last_occ_row '[' row (i + 1) cs none <;> simp [oor]
      · rw [if_neg h, if_neg h]

theorem get_map_str_max_score :
    ∀ (ls : List (List Char)) (row : Nat) (p : Player),
      (get_map_str ls row p).2.max_score
        = p.max_score + 10 * totCount '.' ls + 50 * totCount '@' ls := by
  intro ls
  induction ls with
  | nil =>
      intro row p
      show p.max_score = p.max_score + 10 * totCount '.' [] + 50 * totCount '@' []
      simp [totCount]
  | cons l ls ih =>
      intro row p
      show (get_map_str ls (row + 1) (parse_chars row 0 l p).2).2.max_score = _
      rw [ih, parse_chars_max_score]
      show _ = p.max_score + 10 * (ccount '.' l + totCount '.' ls)
        + 50 * (ccount '@' l + totCount '@' ls)
      ring

theorem get_map_str_portal_1 :
    ∀ (ls : List (List Char)) (row : Nat) (p : Player),
      (get_map_str ls row p).2.portal_1
        = (last_occ ']' ls row none).getD p.portal_1 := by
  intro ls
  induction ls with
  | nil => intro row p; rfl
  | cons l ls ih =>
      intro row p
      show (get_map_str ls (row + 1) (parse_chars row 0 l p).2).2.portal_1
        = (last_occ ']' (l :: ls) row none).getD p.portal_1
      rw [ih, parse_chars_portal_1]
      have locc : last_occ ']' (l :: ls) row none
          = last_occ ']' ls (row + 1) (last_occ_row ']' row 0 l none) := rfl
      rw [locc,
        last_occ_shift ']' ls (row + 1) (last_occ_row ']' row 0 l none)]
      cases last_occ ']' ls (row + 1) none <;>
        cases last_occ_row ']' row 0 l none <;> simp [oor]

theorem get_map_str_portal_2 :
    ∀ (ls : List (List Char)) (row : Nat) (p : Player),
      (get_map_str ls row p).2.portal_2
        = (last_occ '[' ls row none).getD p.portal_2 := by
  intro ls
  induction ls with
  | nil => intro row p; rfl
  | cons l ls ih =>
      intro row p
      show (get_map_str ls (row + 1) (parse_chars row 0 l p).2).2.portal_2
        = (last_occ '[' (l :: ls) row none).getD p.portal_2
      rw [ih, parse_chars_portal_2]
      have locc : last_occ '[' (l :: ls) row none
          = last_occ '[' ls (row + 1) (last_occ_row '[' row 0 l none) := rfl
      rw [locc,
        last_occ_shift '[' ls (row + 1) (last_occ_row '[' row 0 l none)]
      cases last_occ '[' ls (row + 1) none <;>
        cases last_occ_row '[' row 0 l none <;> simp [oor]

/-- An initial player record for the parsing counterexample. -/
def p0_c9 : Player := { pos := (0, 0), direction := UP }

/-- Claim C9, counterexample: on the single row "]]" the claim says the first
bracket determines portal_1, i.e. (0,0); the code's unconditional overwrite
records the last one, (0,1). -/
theorem C9_first_bracket_cex :
    (get_map_str [[']', ']']] 0 p0_c9).2.portal_1 = (0, 1) ∧
    ((0, 1) : Nat × Nat) ≠ (0, 0) := ⟨rfl, by decide⟩

/-- Claim C9, amended: every '.' in the raw input adds 10 to max_score and
every '@' adds 50; the LAST (not first) ']' in parse order determines
portal_1 and the last '[' determines portal_2 (each assignment overwrites the
previous one). -/
theorem C9_parse_portals_and_score (ls : List (List Char)) (p : Player) :
    (get_map_str ls 0 p).2.max_score
        = p.max_score + 10 * totCount '.' ls + 50 * totCount '@' ls ∧
    (get_map_str ls 0 p).2.portal_1 = (last_occ ']' ls 0 none).getD p.portal_1 ∧
    (get_map_str ls 0 p).2.portal_2 = (last_occ '[' ls 0 none).getD p.portal_2 :=
  ⟨get_map_str_max_score ls 0 p, get_map_str_portal_1 ls 0 p,
   get_map_str_portal_2 ls 0 p⟩

/-- enemy::has_no_collision: the cell characters an enemy may step onto. -/
def enemy_has_no_collision (c : Char) : Bool :=
  [' ', '.', '@', '~', '<', '>', 'v', '^', 'o'].contains c

/-- enemy::isValidPosition (the x >= 0 and y >= 0 halves are vacuous for the
unsigned machine type and for Nat alike). -/
def isValidPosition (x y width height : Nat) : Bool :=
  decide (x < width) && decide (y < height)

/-- The candidate step offsets of enemy::move, as size_t pairs in evaluation
order; -1 is the wrapped value 2^64 - 1. -/
def directions : List (Nat × Nat) :=
  [(0, SZ - 1), (0, 1), (SZ - 1, 0), (1, 0)]

/-- The getDirection lambda of enemy::move (the labels attached to the step
offsets; the final LEFT is the "don't worry" fallback of the source). -/
def getDirection (p : Nat × Nat) : DIRECTION :=
  if p = (0, SZ - 1) then UP
  else if p = (0, 1) then DOWN
  else if p = (1, 0) then RIGHT
  else if p = (SZ - 1, 0) then LEFT
  else LEFT

/-- The getOppositeDirection lambda of enemy::move. -/
def getOppositeDirection : DIRECTION → DIRECTION
  | LEFT => RIGHT
  | RIGHT => LEFT
  | UP => DOWN
  | DOWN => UP

/-- Destination cell of a candidate step: position plus offset in size_t
arithmetic, exactly the newX/newY of enemy::move. -/
def stepDest (pos d : Nat × Nat) : Nat × Nat :=
  (szAdd pos.1 d.1, szAdd pos.2 d.2)

/-- Eligibility of a candidate step in enemy::move: destination within the
bound check, destination cell passable for an enemy, and direction label not
the exact reverse of prev_move. -/
def eligible (gm : Nat → Nat → Char) (width height : Nat) (pos : Nat × Nat)
    (prev : DIRECTION) (d : Nat × Nat) : Bool :=
  isValidPosition (stepDest pos d).1 (stepDest pos d).2 width height &&
  enemy_has_no_collision (gm (stepDest pos d).1 (stepDest pos d).2) &&
  decide (getDirection d ≠ getOppositeDirection prev)

/-- UINT_MAX, the initial value of shortestPathLength in enemy::move. -/
def UINT_MAX : Nat := 2 ^ 32 - 1

/-- The loop state of the candidate scan in enemy::move. -/
structure SelState where
  shortestPathLength : Nat
  nextPos : Nat × Nat
  new_move : DIRECTION
deriving DecidableEq

/-- One iteration of the candidate loop of enemy::move (non-frightened path):
an eligible candidate strictly improving the recorded path length replaces
the stored next position and direction. -/
def selStep (gm : Nat → Nat → Char) (width height : Nat) (pos : Nat × Nat)
    (prev : DIRECTION) (target : Nat × Nat) (s : SelState) (d : Nat × Nat) :
    SelState :=
  if eligible gm width height pos prev d then
    if manhattanDistance (stepDest pos d) target < s.shortestPathLength then
      ⟨manhattanDistance (stepDest pos d) target, stepDest pos d, getDirection d⟩
    else s
  else s

/-- The non-frightened movement of enemy::move after the target has been
computed: scan the four candidates and return the new position together with
the value written into prev_move (nextPos starts at the current position and
new_move starts at LEFT, as in the source). -/
def enemy_move_chase (gm : Nat → Nat → Char) (width height : Nat)
    (pos : Nat × Nat) (prev : DIRECTION) (target : Nat × Nat) :
    (Nat × Nat) × DIRECTION :=
  let s := directions.foldl (selStep gm width height pos prev target)
    ⟨UINT_MAX, pos, LEFT⟩
  (s.nextPos, s.new_move)

/-- Spec-side accumulator for claim C1: keep the current best candidate, a
later one replacing it only when strictly smaller under f. -/
def chooseStep (f : Nat × Nat → Nat) (acc : Option (Nat × Nat))
    (d : Nat × Nat) : Option (Nat × Nat) :=
  match acc with
  | none => some d
  | some b => if f d < f b then some d else some b

/-- Spec-side selection for claim C1: the first candidate in list order that
attains the minimal value of f (ties keep the earlier candidate). -/
def chooseFirstMinimal (f : Nat × Nat → Nat) (l : List (Nat × Nat)) :
    Option (Nat × Nat) :=
  l.foldl (chooseStep f) none

theorem chooseStep_fold_min (f : Nat × Nat → Nat) :
    ∀ (l : List (Nat × Nat)) (acc : Option (Nat × Nat)) (b : Nat × Nat),
      l.foldl (chooseStep f) acc = some b →
      (∀ c ∈ l, f b ≤ f c) ∧
      (∀ a, acc = some a → f b ≤ f a) := by
  intro l
  induction l with
  | nil =>
      intro acc b h
      refine ⟨by simp, ?_⟩
      intro a ha
      rw [ha] at h
      cases h
      exact le_refl _
  | cons d l ih =>
      intro acc b h
      have h2 : (chooseStep f acc d :: []).length = 1 := rfl
      have hfold : l.foldl (chooseStep f) (chooseStep f acc d) = some b := h
      have ihh := ih (chooseStep f acc d) b hfold
      have hbd : f b ≤ f d := by
        cases hacc : acc with
        | none => exact ihh.2 d (by rw [hacc]; rfl)
        | some a =>
            by_cases hda : f d < f a
            · exact ihh.2 d (by rw [hacc]; simp [chooseStep, hda])
            · have hba : f b ≤ f a := ihh.2 a (by rw [hacc]; simp [chooseStep, hda])
              exact le_trans hba (le_of_not_lt hda)
      refine ⟨?_, ?_⟩
      · intro c hc
        rcases List.mem_cons.mp hc with hcd | hcl
        · rw [hcd]; exact hbd
        · exact ihh.1 c hcl
      · intro a ha
        subst ha
        by_cases hda : f d < f a
        · exact le_trans hbd (le_of_lt hda)
        · exact ihh.2 a (by simp [chooseStep, hda])

theorem manhattanDistance_lt_UINT_MAX (a t : Nat × Nat)
    (ha1 : a.1 < 2 ^ 30) (ha2 : a.2 < 2 ^ 30)
    (ht1 : t.1 ≤ 2 ^ 30) (ht2 : t.2 ≤ 2 ^ 30) :
    manhattanDistance a t < UINT_MAX := by
  simp only [manhattanDistance, UINT_MAX]
  omega

theorem eligible_bounds (gm : Nat → Nat → Char) (width height : Nat)
    (pos : Nat × Nat) (prev : DIRECTION) (d : Nat × Nat)
    (h : eligible gm width height pos prev d = true) :
    (stepDest pos d).1 < width ∧ (stepDest pos d).2 < height := by
  simp only [eligible, isValidPosition, Bool.and_eq_true,
    decide_eq_true_eq] at h
  exact ⟨h.1.1.1, h.1.1.2⟩

/-- Correspondence between the loop state of enemy::move's candidate scan and
the spec-side accumulator. -/
def selCorr (gm : Nat → Nat → Char) (width height : Nat) (pos : Nat × Nat)
    (prev : DIRECTION) (target : Nat × Nat) (s : SelState)
    (acc : Option (Nat × Nat)) : Prop :=
  (acc = none ∧ s = ⟨UINT_MAX, pos, LEFT⟩) ∨
  (∃ b, acc = some b ∧ eligible gm width height pos prev b = true ∧
    s = ⟨manhattanDistance (stepDest pos b) target, stepDest pos b,
      getDirection b⟩)

theorem sel_fold_corr (gm : Nat → Nat → Char) (width height : Nat)
    (pos : Nat × Nat) (prev : DIRECTION) (target : Nat × Nat)
    (hw : width ≤ 2 ^ 30) (hh : height ≤ 2 ^ 30)
    (ht1 : target.1 ≤ 2 ^ 30) (ht2 : target.2 ≤ 2 ^ 30) :
    ∀ (l : List (Nat × Nat)) (s : SelState) (acc : Option (Nat × Nat)),
      selCorr gm width height pos prev target s acc →
      selCorr gm width height pos prev target
        (l.foldl (selStep gm width height pos prev target) s)
        ((l.filter (eligible gm width height pos prev)).foldl
          (chooseStep (fun c => manhattanDistance (stepDest pos c) target))
          acc) := by
  intro l
  induction l with
  | nil => intro s acc h; exact h
  | cons d l ih =>
      intro s acc h
      by_cases he : eligible gm width height pos prev d = true
      · have hdist : manhattanDistance (stepDest pos d) target < UINT_MAX := by
          have hb := eligible_bounds gm width height pos prev d he
          exact manhattanDistance_lt_UINT_MAX _ _
            (lt_of_lt_of_le hb.1 hw) (lt_of_lt_of_le hb.2 hh) ht1 ht2
        rw [List.foldl_cons, List.filter_cons, if_pos he, List.foldl_cons]
        apply ih
        rcases h with ⟨hacc, hs⟩ | ⟨b, hacc, heb, hs⟩
        · right
          refine ⟨d, ?_, he, ?_⟩
          · rw [hacc]; rfl
          · rw [hs]
            simp [selStep, he, hdist]
        · rw [hacc, hs]
          by_cases hlt : manhattanDistance (stepDest pos d) target
              < manhattanDistance (stepDest pos b) target
          · right
            refine ⟨d, ?_, he, ?_⟩
            · simp [chooseStep, hlt]
            · simp [selStep, he, hlt]
          · right
            refine ⟨b, ?_, heb, ?_⟩
            · simp [chooseStep, hlt]
            · simp [selStep, he, hlt]
      · rw [List.foldl_cons, List.filter_cons, if_neg he]
        apply ih
        rcases h with ⟨hacc, hs⟩ | ⟨b, hacc, heb, hs⟩
        · left
          refine ⟨hacc, ?_⟩
          rw [hs]
          simp [selStep, he]
        · right
          refine ⟨b, hacc, heb, ?_⟩
          rw [hs]
          simp [selStep, he]

/-- Claim C1 (amended): for every maze, position, previous move and target
(with coordinates in the machine-realistic range where the int casts inside
manhattanDistance are the identity), the non-frightened enemy step selects,
among the four candidate steps in evaluation order up/down/left/right, the
first eligible one minimizing the Manhattan distance from its destination to
the target; if no candidate is eligible the enemy does not move, but
prev_move is set to LEFT (the loop's initialization value) rather than kept. -/
theorem C1_enemy_chase_selection (gm : Nat → Nat → Char) (width height : Nat)
    (pos : Nat × Nat) (prev : DIRECTION) (target : Nat × Nat)
    (hw : width ≤ 2 ^ 30) (hh : height ≤ 2 ^ 30)
    (ht1 : target.1 ≤ 2 ^ 30) (ht2 : target.2 ≤ 2 ^ 30) :
    (directions.filter (eligible gm width height pos prev) = [] →
      enemy_move_chase gm width height pos prev target = (pos, LEFT)) ∧
    (∀ d, chooseFirstMinimal
        (fun c => manhattanDistance (stepDest pos c) target)
        (directions.filter (eligible gm width height pos prev)) = some d →
      enemy_move_chase gm width height pos prev target
          = (stepDest pos d, getDirection d) ∧
        eligible gm width height pos prev d = true ∧
        ∀ c ∈ directions.filter (eligible gm width height pos prev),
          manhattanDistance (stepDest pos d) target
            ≤ manhattanDistance (stepDest pos c) target) := by
  have hcorr := sel_fold_corr gm width height pos prev target hw hh ht1 ht2
    directions ⟨UINT_MAX, pos, LEFT⟩ none (Or.inl ⟨rfl, rfl⟩)
  constructor
  · intro hempty
    rw [hempty] at hcorr
    rcases hcorr with ⟨_, hs⟩ | ⟨b, hacc, _, _⟩
    · show ((directions.foldl (selStep gm width height pos prev target)
          ⟨UINT_MAX, pos, LEFT⟩).nextPos,
        (directions.foldl (selStep gm width height pos prev target)
          ⟨UINT_MAX, pos, LEFT⟩).new_move) = (pos, LEFT)
      rw [hs]
    · cases hacc
  · intro d hd
    have hacc2 : (directions.filter (eligible gm width height pos prev)).foldl
        (chooseStep (fun c => manhattanDistance (stepDest pos c) target))
        none = some d := hd
    rcases hcorr with ⟨hacc, _⟩ | ⟨b, hacc, heb, hs⟩
    · rw [hacc] at hacc2; cases hacc2
    · rw [hacc] at hacc2
      injection hacc2 with hbd2
      subst hbd2
      refine ⟨?_, heb, ?_⟩
      · show ((directions.foldl (selStep gm width height pos prev target)
            ⟨UINT_MAX, pos, LEFT⟩).nextPos,
          (directions.foldl (selStep gm width height pos prev target)
            ⟨UINT_MAX, pos, LEFT⟩).new_move) = (stepDest pos b, getDirection b)
        rw [hs]
      · intro c hc
        exact (chooseStep_fold_min _ _ none b hd).1 c hc

/-- An all-wall maze used to exhibit the stuck-enemy behavior. -/
def gm_walls : Nat → Nat → Char := fun _ _ => '#'

/-- Claim C1, counterexample: in an all-wall 3-by-3 maze an enemy at (1,1)
with prev_move UP has no eligible candidate; its position is unchanged but
the code writes LEFT into prev_move, so prev_move is NOT unchanged. -/
theorem C1_stuck_prev_move_cex :
    enemy_move_chase gm_walls 3 3 (1, 1) UP (0, 0) = ((1, 1), LEFT) ∧
    LEFT ≠ UP := by
  refine ⟨rfl, by decide⟩

/-- An all-space maze for the witness. -/
def gm_open : Nat → Nat → Char := fun _ _ => ' '

/-- Witness for the amended claim C1: concrete run in an open 5-by-5 maze,
enemy at (2,2), prev_move UP, target (0,0).  The DOWN candidate is the
forbidden reverse; UP and LEFT both reach distance 3 and the earlier UP wins
the tie, demonstrating the first-minimal tie break. -/
theorem C1_enemy_chase_selection_witness :
    enemy_move_chase gm_open 5 5 (2, 2) UP (0, 0) = ((2, 1), UP) := by
  have h := (C1_enemy_chase_selection gm_open 5 5 (2, 2) UP (0, 0)
    (by norm_num) (by norm_num) (by norm_num) (by norm_num)).2
    (0, SZ - 1) (by rfl)
  rw [h.1]
  rfl

/-- WIDTH from main (number of rows of the fixed grid). -/
def WIDTH : Nat := 32

/-- HEIGHT from main (number of columns of the fixed grid; update_map and
enemy::move are instantiated with template width = HEIGHT = 40 and
height = WIDTH = 32 by argument deduction). -/
def HEIGHT : Nat := 40

/-- ghost1's spawn cell from main. -/
def ghost1_spawn : Nat × Nat := (8, 16)

/-- ghost2's spawn cell from main. -/
def ghost2_spawn : Nat × Nat := (10, 14)

/-- ghost3's spawn cell from main. -/
def ghost3_spawn : Nat × Nat := (10, 15)

/-- ghost4's spawn cell from main. -/
def ghost4_spawn : Nat × Nat := (10, 16)

/-- The mutable state of the main loop. -/
structure GState where
  game_vec : List (List Char)
  pacman : Player
  g1 : Enemy
  g2 : Enemy
  g3 : Enemy
  g4 : Enemy
  frightened_countdown : Nat
  frameCount : Nat
  secs : Nat
  game_map : Nat → Nat → Char

/-- The grid contents right after the clear-and-copy loops at the top of
update_map: cell (i,j) holds game_vec[i][j] when i is a stored row, j is
below the row width (the inner array size, template width) and below that
row's length, and the cleared blank otherwise.  List.getD returns the blank
default exactly in the out-of-range cases the copy loop skips. -/
def base_map (gv : List (List Char)) (width : Nat) : Nat → Nat → Char :=
  fun i j => if j < width then (gv.getD i []).getD j ' ' else ' '

/-- In-place update of one cell of the persistent layer (no-op out of range,
which the caller never hits: the source writes only to a cell it just read). -/
def setCell (gv : List (List Char)) (pos : Nat × Nat) (c : Char) :
    List (List Char) :=
  gv.set pos.1 ((gv.getD pos.1 []).set pos.2 c)

/-- The eat/teleport if-else chain of update_map: a pellet under the player
is removed and scores 10; a power pellet is removed, scores 50 and arms the
frightened countdown at 10; otherwise standing on portal_1 teleports to
portal_2 shifted one column right, and standing on portal_2 teleports to
portal_1 shifted one column left (size_t arithmetic). -/
def eat_upd (width : Nat) (s : GState) : GState :=
  if base_map s.game_vec width s.pacman.pos.1 s.pacman.pos.2 = '.' then
    { s with
      game_vec := setCell s.game_vec s.pacman.pos ' ',
      pacman := { s.pacman with score := s.pacman.score + 10 } }
  else if base_map s.game_vec width s.pacman.pos.1 s.pacman.pos.2 = '@' then
    { s with
      game_vec := setCell s.game_vec s.pacman.pos ' ',
      pacman := { s.pacman with score := s.pacman.score + 50 },
      frightened_countdown := 10 }
  else if s.pacman.pos.1 = s.pacman.portal_1.1 ∧
      s.pacman.pos.2 = s.pacman.portal_1.2 then
    { s with pacman := { s.pacman with
        pos := (s.pacman.portal_2.1, szAdd s.pacman.portal_2.2 1) } }
  else if s.pacman.pos.1 = s.pacman.portal_2.1 ∧
      s.pacman.pos.2 = s.pacman.portal_2.2 then
    { s with pacman := { s.pacman with
        pos := (s.pacman.portal_1.1, szSub s.pacman.portal_1.2 1) } }
  else s

/-- The glyph update_map draws for the player (2-frame animation). -/
def player_glyph (p : Player) : Char :=
  if p.current_anim_frame < 3 then (player_icons p.direction).1
  else (player_icons p.direction).2

/-- The grid as update_map leaves it: actors drawn over the base layer, the
player first and the ghosts after (later draws win, so g4 has priority). -/
def rendered_map (width : Nat) (s : GState) : Nat → Nat → Char :=
  fun i j =>
    if (i, j) = s.g4.pos then s.g4.icon
    else if (i, j) = s.g3.pos then s.g3.icon
    else if (i, j) = s.g2.pos then s.g2.icon
    else if (i, j) = s.g1.pos then s.g1.icon
    else if (i, j) = s.pacman.pos then player_glyph s.pacman
    else base_map s.game_vec width i j

/-- Store the drawn grid into the game_map the next tick's moves will read. -/
def render_upd (width : Nat) (s : GState) : GState :=
  { s with game_map := rendered_map width s }

/-- The is_over check of update_map: any non-frightened ghost on the
player's cell ends the game. -/
def collide_over (s : GState) : GState :=
  if (s.g1.pos = s.pacman.pos ∧ s.g1.mode ≠ FRIGHTENED) ∨
      (s.g2.pos = s.pacman.pos ∧ s.g2.mode ≠ FRIGHTENED) ∨
      (s.g3.pos = s.pacman.pos ∧ s.g3.mode ≠ FRIGHTENED) ∨
      (s.g4.pos = s.pacman.pos ∧ s.g4.mode ≠ FRIGHTENED) then
    { s with pacman := { s.pacman with is_over := true } }
  else s

/-- The g1 frightened-capture block of update_map. -/
def eat_g1 (s : GState) : GState :=
  if s.g1.pos = s.pacman.pos ∧ s.g1.mode = FRIGHTENED then
    { s with g1 :=
        { set_character s.g1 BLINKY with pos := (8, 16), mode := NORMAL } }
  else s

/-- The g2 frightened-capture block of update_map.  Faithful to the source's
slip: it resets g2's position and glyph but assigns NORMAL to g4.mode (not
g2.mode), leaving g2 frightened. -/
def eat_g2 (s : GState) : GState :=
  if s.g2.pos = s.pacman.pos ∧ s.g2.mode = FRIGHTENED then
    { s with
      g2 := { set_character s.g2 PINKY with pos := (8, 16) },
      g4 := { s.g4 with mode := NORMAL } }
  else s

/-- The g3 frightened-capture block of update_map. -/
def eat_g3 (s : GState) : GState :=
  if s.g3.pos = s.pacman.pos ∧ s.g3.mode = FRIGHTENED then
    { s with g3 :=
        { set_character s.g3 INKY with pos := (8, 16), mode := NORMAL } }
  else s

/-- The g4 frightened-capture block of update_map (runs after the g2 block,
so it observes the g4.mode that block may have just overwritten). -/
def eat_g4 (s : GState) : GState :=
  if s.g4.pos = s.pacman.pos ∧ s.g4.mode = FRIGHTENED then
    { s with g4 :=
        { set_character s.g4 CLYDE with pos := (8, 16), mode := NORMAL } }
  else s

/-- The collision section of update_map, in source order. -/
def collision_upd (s : GState) : GState :=
  eat_g4 (eat_g3 (eat_g2 (eat_g1 (collide_over s))))

/-- update_map of main.cpp: rebuild the grid from the persistent layer, run
the eat/teleport chain on the player's cell, draw the actors, then resolve
collisions. -/
def update_map (width : Nat) (s : GState) : GState :=
  collision_upd (render_upd width (eat_upd width s))

@[simp] theorem collide_over_g1 (s : GState) : (collide_over s).g1 = s.g1 := by
  unfold collide_over; split <;> rfl

@[simp] theorem collide_over_g2 (s : GState) : (collide_over s).g2 = s.g2 := by
  unfold collide_over; split <;> rfl

@[simp] theorem collide_over_g3 (s : GState) : (collide_over s).g3 = s.g3 := by
  unfold collide_over; split <;> rfl

@[simp] theorem collide_over_g4 (s : GState) : (collide_over s).g4 = s.g4 := by
  unfold collide_over; split <;> rfl

@[simp] theorem collide_over_pac_pos (s : GState) :
    (collide_over s).pacman.pos = s.pacman.pos := by
  unfold collide_over; split <;> rfl

@[simp] theorem collide_over_game_vec (s : GState) :
    (collide_over s).game_vec = s.game_vec := by
  unfold collide_over; split <;> rfl

@[simp] theorem collide_over_pac_score (s : GState) :
    (collide_over s).pacman.score = s.pacman.score := by
  unfold collide_over; split <;> rfl

@[simp] theorem collide_over_pac_max (s : GState) :
    (collide_over s).pacman.max_score = s.pacman.max_score := by
  unfold collide_over; split <;> rfl

@[simp] theorem collide_over_fcd (s : GState) :
    (collide_over s).frightened_countdown = s.frightened_countdown := by
  unfold collide_over; split <;> rfl

@[simp] theorem eat_g1_pacman (s : GState) : (eat_g1 s).pacman = s.pacman := by
  unfold eat_g1; split <;> rfl

@[simp] theorem eat_g1_g2 (s : GState) : (eat_g1 s).g2 = s.g2 := by
  unfold eat_g1; split <;> rfl

@[simp] theorem eat_g1_g3 (s : GState) : (eat_g1 s).g3 = s.g3 := by
  unfold eat_g1; split <;> rfl

@[simp] theorem eat_g1_g4 (s : GState) : (eat_g1 s).g4 = s.g4 := by
  unfold eat_g1; split <;> rfl

@[simp] theorem eat_g1_game_vec (s : GState) :
    (eat_g1 s).game_vec = s.game_vec := by
  unfold eat_g1; split <;> rfl

@[simp] theorem eat_g1_fcd (s : GState) :
    (eat_g1 s).frightened_countdown = s.frightened_countdown := by
  unfold eat_g1; split <;> rfl

@[simp] theorem eat_g2_pacman (s : GState) : (eat_g2 s).pacman = s.pacman := by
  unfold eat_g2; split <;> rfl

@[simp] theorem eat_g2_g1 (s : GState) : (eat_g2 s).g1 = s.g1 := by
  unfold eat_g2; split <;> rfl

@[simp] theorem eat_g2_g3 (s : GState) : (eat_g2 s).g3 = s.g3 := by
  unfold eat_g2; split <;> rfl

@[simp] theorem eat_g2_game_vec (s : GState) :
    (eat_g2 s).game_vec = s.game_vec := by
  unfold eat_g2; split <;> rfl

@[simp] theorem eat_g2_fcd (s : GState) :
    (eat_g2 s).frightened_countdown = s.frightened_countdown := by
  unfold eat_g2; split <;> rfl

@[simp] theorem eat_g3_pacman (s : GState) : (eat_g3 s).pacman = s.pacman := by
  unfold eat_g3; split <;> rfl

@[simp] theorem eat_g3_g1 (s : GState) : (eat_g3 s).g1 = s.g1 := by
  unfold eat_g3; split <;> rfl

@[simp] theorem eat_g3_g2 (s : GState) : (eat_g3 s).g2 = s.g2 := by
  unfold eat_g3; split <;> rfl

@[simp] theorem eat_g3_g4 (s : GState) : (eat_g3 s).g4 = s.g4 := by
  unfold eat_g3; split <;> rfl

@[simp] theorem eat_g3_game_vec (s : GState) :
    (eat_g3 s).game_vec = s.game_vec := by
  unfold eat_g3; split <;> rfl

@[simp] theorem eat_g3_fcd (s : GState) :
    (eat_g3 s).frightened_countdown = s.frightened_countdown := by
  unfold eat_g3; split <;> rfl

@[simp] theorem eat_g4_pacman (s : GState) : (eat_g4 s).pacman = s.pacman := by
  unfold eat_g4; split <;> rfl

@[simp] theorem eat_g4_g1 (s : GState) : (eat_g4 s).g1 = s.g1 := by
  unfold eat_g4; split <;> rfl

@[simp] theorem eat_g4_g2 (s : GState) : (eat_g4 s).g2 = s.g2 := by
  unfold eat_g4; split <;> rfl

@[simp] theorem eat_g4_g3 (s : GState) : (eat_g4 s).g3 = s.g3 := by
  unfold eat_g4; split <;> rfl

@[simp] theorem eat_g4_game_vec (s : GState) :
    (eat_g4 s).game_vec = s.game_vec := by
  unfold eat_g4; split <;> rfl

@[simp] theorem eat_g4_fcd (s : GState) :
    (eat_g4 s).frightened_countdown = s.frightened_countdown := by
  unfold eat_g4; split <;> rfl

@[simp] theorem render_upd_pacman (width : Nat) (s : GState) :
    (render_upd width s).pacman = s.pacman := rfl

@[simp] theorem render_upd_g1 (width : Nat) (s : GState) :
    (render_upd width s).g1 = s.g1 := rfl

@[simp] theorem render_upd_g2 (width : Nat) (s : GState) :
    (render_upd width s).g2 = s.g2 := rfl

@[simp] theorem render_upd_g3 (width : Nat) (s : GState) :
    (render_upd width s).g3 = s.g3 := rfl

@[simp] theorem render_upd_g4 (width : Nat) (s : GState) :
    (render_upd width s).g4 = s.g4 := rfl

@[simp] theorem render_upd_game_vec (width : Nat) (s : GState) :
    (render_upd width s).game_vec = s.game_vec := rfl

@[simp] theorem render_upd_fcd (width : Nat) (s : GState) :
    (render_upd width s).frightened_countdown = s.frightened_countdown := rfl

@[simp] theorem collide_over_is_over (s : GState) :
    (collide_over s).pacman.is_over =
      if (s.g1.pos = s.pacman.pos ∧ s.g1.mode ≠ FRIGHTENED) ∨
          (s.g2.pos = s.pacman.pos ∧ s.g2.mode ≠ FRIGHTENED) ∨
          (s.g3.pos = s.pacman.pos ∧ s.g3.mode ≠ FRIGHTENED) ∨
          (s.g4.pos = s.pacman.pos ∧ s.g4.mode ≠ FRIGHTENED)
      then true else s.pacman.is_over := by
  unfold collide_over
  by_cases h : (s.g1.pos = s.pacman.pos ∧ s.g1.mode ≠ FRIGHTENED) ∨
      (s.g2.pos = s.pacman.pos ∧ s.g2.mode ≠ FRIGHTENED) ∨
      (s.g3.pos = s.pacman.pos ∧ s.g3.mode ≠ FRIGHTENED) ∨
      (s.g4.pos = s.pacman.pos ∧ s.g4.mode ≠ FRIGHTENED)
  · rw [if_pos h, if_pos h]
  · rw [if_neg h, if_neg h]

@[simp] theorem eat_g1_g1 (s : GState) :
    (eat_g1 s).g1 =
      if s.g1.pos = s.pacman.pos ∧ s.g1.mode = FRIGHTENED
      then { set_character s.g1 BLINKY with pos := (8, 16), mode := NORMAL }
      else s.g1 := by
  unfold eat_g1
  by_cases h : s.g1.pos = s.pacman.pos ∧ s.g1.mode = FRIGHTENED
  · rw [if_pos h, if_pos h]
  · rw [if_neg h, if_neg h]

@[simp] theorem eat_g2_g2 (s : GState) :
    (eat_g2 s).g2 =
      if s.g2.pos = s.pacman.pos ∧ s.g2.mode = FRIGHTENED
      then { set_character s.g2 PINKY with pos := (8, 16) }
      else s.g2 := by
  unfold eat_g2
  by_cases h : s.g2.pos = s.pacman.pos ∧ s.g2.mode = FRIGHTENED
  · rw [if_pos h, if_pos h]
  · rw [if_neg h, if_neg h]

@[simp] theorem eat_g2_g4 (s : GState) :
    (eat_g2 s).g4 =
      if s.g2.pos = s.pacman.pos ∧ s.g2.mode = FRIGHTENED
      then { s.g4 with mode := NORMAL }
      else s.g4 := by
  unfold eat_g2
  by_cases h : s.g2.pos = s.pacman.pos ∧ s.g2.mode = FRIGHTENED
  · rw [if_pos h, if_pos h]
  · rw [if_neg h, if_neg h]

@[simp] theorem eat_g3_g3 (s : GState) :
    (eat_g3 s).g3 =
      if s.g3.pos = s.pacman.pos ∧ s.g3.mode = FRIGHTENED
      then { set_character s.g3 INKY with pos := (8, 16), mode := NORMAL }
      else s.g3 := by
  unfold eat_g3
  by_cases h : s.g3.pos = s.pacman.pos ∧ s.g3.mode = FRIGHTENED
  · rw [if_pos h, if_pos h]
  · rw [if_neg h, if_neg h]

@[simp] theorem eat_g4_g4 (s : GState) :
    (eat_g4 s).g4 =
      if s.g4.pos = s.pacman.pos ∧ s.g4.mode = FRIGHTENED
      then { set_character s.g4 CLYDE with pos := (8, 16), mode := NORMAL }
      else s.g4 := by
  unfold eat_g4
  by_cases h : s.g4.pos = s.pacman.pos ∧ s.g4.mode = FRIGHTENED
  · rw [if_pos h, if_pos h]
  · rw [if_neg h, if_neg h]

/-- Claim C4 (amended): on the collision step, the player's is_over flag is
set exactly when some ghost in a non-frightened mode shares the player's
cell (a frightened overlap alone leaves the player unharmed).  A frightened
ghost on the player's cell is reset to (8,16) (the FIRST ghost's spawn, not
its own), with its glyph restored; its mode is set back to NORMAL for the
first, third and fourth ghost, but for the second ghost the source assigns
NORMAL to the FOURTH ghost's mode instead, leaving the second ghost
frightened (and, by that same write, blocking the fourth ghost's own reset
in that tick, as its condition runs after the write). -/
theorem C4_collision_resolution :
    (∀ s : GState, ((collision_upd s).pacman.is_over = true ↔
      (s.pacman.is_over = true ∨
        ((s.g1.pos = s.pacman.pos ∧ s.g1.mode ≠ FRIGHTENED) ∨
          (s.g2.pos = s.pacman.pos ∧ s.g2.mode ≠ FRIGHTENED) ∨
          (s.g3.pos = s.pacman.pos ∧ s.g3.mode ≠ FRIGHTENED) ∨
          (s.g4.pos = s.pacman.pos ∧ s.g4.mode ≠ FRIGHTENED))))) ∧
    (∀ s : GState, s.g1.pos = s.pacman.pos → s.g1.mode = FRIGHTENED →
      (collision_upd s).g1.pos = (8, 16) ∧
      (collision_upd s).g1.icon = 'B' ∧
      (collision_upd s).g1.mode = NORMAL) ∧
    (∀ s : GState, s.g2.pos = s.pacman.pos → s.g2.mode = FRIGHTENED →
      (collision_upd s).g2.pos = (8, 16) ∧
      (collision_upd s).g2.icon = 'P' ∧
      (collision_upd s).g2.mode = FRIGHTENED ∧
      (collision_upd s).g4.mode = NORMAL ∧
      (collision_upd s).g4.pos = s.g4.pos) ∧
    (∀ s : GState, s.g3.pos = s.pacman.pos → s.g3.mode = FRIGHTENED →
      (collision_upd s).g3.pos = (8, 16) ∧
      (collision_upd s).g3.icon = 'I' ∧
      (collision_upd s).g3.mode = NORMAL) ∧
    (∀ s : GState, s.g4.pos = s.pacman.pos → s.g4.mode = FRIGHTENED →
      ¬(s.g2.pos = s.pacman.pos ∧ s.g2.mode = FRIGHTENED) →
      (collision_upd s).g4.pos = (8, 16) ∧
      (collision_upd s).g4.icon = 'C' ∧
      (collision_upd s).g4.mode = NORMAL) := by
  refine ⟨?_, ?_, ?_, ?_, ?_⟩
  · intro s
    have hpac : (collision_upd s).pacman = (collide_over s).pacman := by
      simp [collision_upd]
    rw [hpac]
    unfold collide_over
    split
    next hC =>
      constructor
      · intro _; exact Or.inr hC
      · intro _; rfl
    next hC =>
      constructor
      · intro h; exact Or.inl h
      · rintro (h | h)
        · exact h
        · exact absurd h hC
  · intro s h1 h2
    refine ⟨?_, ?_, ?_⟩ <;> simp [collision_upd, h1, h2, set_character]
  · intro s h1 h2
    refine ⟨?_, ?_, ?_, ?_, ?_⟩ <;> simp [collision_upd, h1, h2, set_character]
  · intro s h1 h2
    refine ⟨?_, ?_, ?_⟩ <;> simp [collision_upd, h1, h2, set_character]
  · intro s h1 h2 hng2
    refine ⟨?_, ?_, ?_⟩ <;> simp [collision_upd, h1, h2, hng2, set_character]

/-- An out-of-the-way chase-mode ghost used in concrete states. -/
def enemy_away : Enemy :=
  { pos := (1, 1), icon := 'B', character := BLINKY, mode := NORMAL,
    prev_move := UP, target := (0, 0) }

/-- Concrete state for the C4 counterexample: the second ghost, frightened,
sits on the player's cell; everyone else is away and not frightened. -/
def c4x : GState :=
  { game_vec := [],
    pacman := { pos := (5, 5), direction := UP },
    g1 := enemy_away,
    g2 := { pos := (5, 5), icon := 'X', character := PINKY,
            mode := FRIGHTENED, prev_move := UP, target := (0, 0) },
    g3 := { enemy_away with icon := 'I', character := INKY },
    g4 := { pos := (2, 2), icon := 'C', character := CLYDE, mode := NORMAL,
            prev_move := UP, target := (0, 0) },
    frightened_countdown := 3,
    frameCount := 0,
    secs := 0,
    game_map := fun _ _ => ' ' }

/-- Claim C4, counterexample: eating the second frightened ghost moves it to
(8,16), which is not its own spawn cell (10,14); its mode stays FRIGHTENED
instead of returning to NORMAL; and the fourth ghost's mode is overwritten,
so the reset does not touch "only that enemy".  The player stays unharmed. -/
theorem C4_eaten_ghost_cex :
    (collision_upd c4x).g2.pos = (8, 16) ∧
    (collision_upd c4x).g2.mode = FRIGHTENED ∧
    ghost2_spawn = (10, 14) ∧
    ((8, 16) : Nat × Nat) ≠ ghost2_spawn ∧
    (collision_upd c4x).g4.mode = NORMAL ∧
    (collision_upd c4x).pacman.is_over = false := by
  refine ⟨rfl, rfl, rfl, by decide, rfl, rfl⟩

/-- Concrete state for the C4 witness: the first ghost, frightened, on the
player's cell. -/
def c4w : GState :=
  { game_vec := [],
    pacman := { pos := (3, 3), direction := UP },
    g1 := { pos := (3, 3), icon := 'X', character := BLINKY,
            mode := FRIGHTENED, prev_move := UP, target := (0, 0) },
    g2 := { enemy_away with icon := 'P', character := PINKY },
    g3 := { enemy_away with icon := 'I', character := INKY },
    g4 := { enemy_away with icon := 'C', character := CLYDE },
    frightened_countdown := 3,
    frameCount := 0,
    secs := 0,
    game_map := fun _ _ => ' ' }

/-- Witness for the amended claim C4 at a concrete state: the first ghost is
reset to (8,16) with glyph 'B' and mode NORMAL. -/
theorem C4_collision_resolution_witness :
    (collision_upd c4w).g1.pos = (8, 16) ∧
    (collision_upd c4w).g1.icon = 'B' ∧
    (collision_upd c4w).g1.mode = NORMAL :=
  C4_collision_resolution.2.1 c4w rfl rfl

/-- Claim C7 (amended): the portal teleports of update_map happen only when
the player's cell is not a pellet or power pellet (eating takes precedence
in the if-else chain).  Standing on portal_1 moves the player to portal_2
shifted one column right; standing on portal_2 (and not on portal_1) moves
it to portal_1 shifted one column left in size_t arithmetic, which is the
claimed minus-one column whenever portal_1's column is nonzero; doing the
two teleports one after the other therefore lands one column to the left of
portal_1, back on the original tunnel side. -/
theorem C7_portal_teleport :
    (∀ (width : Nat) (s : GState),
      base_map s.game_vec width s.pacman.pos.1 s.pacman.pos.2 ≠ '.' →
      base_map s.game_vec width s.pacman.pos.1 s.pacman.pos.2 ≠ '@' →
      s.pacman.pos = s.pacman.portal_1 →
      (update_map width s).pacman.pos
        = (s.pacman.portal_2.1, szAdd s.pacman.portal_2.2 1)) ∧
    (∀ (width : Nat) (s : GState),
      base_map s.game_vec width s.pacman.pos.1 s.pacman.pos.2 ≠ '.' →
      base_map s.game_vec width s.pacman.pos.1 s.pacman.pos.2 ≠ '@' →
      s.pacman.pos ≠ s.pacman.portal_1 →
      s.pacman.pos = s.pacman.portal_2 →
      (update_map width s).pacman.pos
        = (s.pacman.portal_1.1, szSub s.pacman.portal_1.2 1)) ∧
    (∀ a : Nat, 1 ≤ a → a ≤ 2 ^ 30 → szSub a 1 = a - 1 ∧ szAdd a 1 = a + 1) := by
  refine ⟨?_, ?_, ?_⟩
  · intro width s hdot hat hp
    have hpos : (update_map width s).pacman.pos
        = (eat_upd width s).pacman.pos := by
      simp [update_map, collision_upd]
    rw [hpos]
    unfold eat_upd
    rw [if_neg hdot, if_neg hat,
      if_pos ⟨congrArg Prod.fst hp, congrArg Prod.snd hp⟩]
  · intro width s hdot hat hnp hp
    have hpos : (update_map width s).pacman.pos
        = (eat_upd width s).pacman.pos := by
      simp [update_map, collision_upd]
    rw [hpos]
    unfold eat_upd
    have hn1 : ¬(s.pacman.pos.1 = s.pacman.portal_1.1 ∧
        s.pacman.pos.2 = s.pacman.portal_1.2) := by
      intro hcc
      exact hnp (Prod.ext_iff.mpr ⟨hcc.1, hcc.2⟩)
    rw [if_neg hdot, if_neg hat, if_neg hn1,
      if_pos ⟨congrArg Prod.fst hp, congrArg Prod.snd hp⟩]
  · intro a h1 h2
    constructor
    · simp only [szSub, SZ]
      omega
    · simp only [szAdd, SZ]
      omega

/-- Concrete state for the C7 counterexample: the persistent layer holds a
pellet exactly on portal_1's cell and the player stands there. -/
def c7x : GState :=
  { game_vec := [[' ', '.', ' ']],
    pacman := { pos := (0, 1), direction := UP,
                portal_1 := (0, 1), portal_2 := (0, 5) },
    g1 := enemy_away,
    g2 := { enemy_away with icon := 'P', character := PINKY },
    g3 := { enemy_away with icon := 'I', character := INKY },
    g4 := { enemy_away with icon := 'C', character := CLYDE },
    frightened_countdown := 0,
    frameCount := 0,
    secs := 0,
    game_map := fun _ _ => ' ' }

/-- Claim C7, counterexample: the player stands exactly on portal_1, but the
cell holds a pellet, so update_map eats (score goes to 10) and does NOT
teleport: the claim's "for every game state ... is teleported" fails. -/
theorem C7_portal_pellet_cex :
    c7x.pacman.pos = c7x.pacman.portal_1 ∧
    (update_map 40 c7x).pacman.pos = (0, 1) ∧
    (update_map 40 c7x).pacman.score = 10 ∧
    ((0, 1) : Nat × Nat)
      ≠ (c7x.pacman.portal_2.1, szAdd c7x.pacman.portal_2.2 1) := by
  refine ⟨rfl, rfl, rfl, by decide⟩

/-- Concrete state for the C7 witness: the player stands on portal_1, whose
cell holds the portal glyph. -/
def c7w : GState :=
  { game_vec := [[']']],
    pacman := { pos := (0, 0), direction := UP,
                portal_1 := (0, 0), portal_2 := (0, 7) },
    g1 := enemy_away,
    g2 := { enemy_away with icon := 'P', character := PINKY },
    g3 := { enemy_away with icon := 'I', character := INKY },
    g4 := { enemy_away with icon := 'C', character := CLYDE },
    frightened_countdown := 0,
    frameCount := 0,
    secs := 0,
    game_map := fun _ _ => ' ' }

/-- Witness for the amended claim C7: the concrete teleport from portal_1
(0,0) lands at (0,8), one column right of portal_2 (0,7), and the size_t
column arithmetic agrees with plain plus/minus one in range. -/
theorem C7_portal_teleport_witness :
    (update_map 40 c7w).pacman.pos = (0, 8) ∧ szSub 9 1 = 8 := by
  constructor
  · have h := C7_portal_teleport.1 40 c7w (by decide) (by decide) rfl
    exact h.trans (by decide)
  · have h := (C7_portal_teleport.2.2 9 (by norm_num) (by norm_num)).1
    exact h

/-- The frightened-mode random walk of enemy::move: repeatedly draw an index
from the random stream, mark it visited, move to the first eligible sampled
candidate, and hold position once all four indices are visited without
success; in both exit paths without a move the loop's new_move keeps its
LEFT initialization, which is what gets written to prev_move.  The stream
models the successive draws of the uniform distribution; exhausting it
models a run of the C++ loop longer than the supplied samples (impossible
with fair randomness) and holds position like the all-visited exit. -/
def frightened_go (gm : Nat → Nat → Char) (width height : Nat)
    (pos : Nat × Nat) (prev : DIRECTION) :
    List (Fin 4) → (Fin 4 → Bool) → (Nat × Nat) × DIRECTION
  | [], _ => (pos, LEFT)
  | r :: rs, visited =>
      let visited2 : Fin 4 → Bool := fun i => visited i || decide (i = r)
      let d := directions.getD r.val (0, 0)
      if eligible gm width height pos prev d then
        (stepDest pos d, getDirection d)
      else if visited2 0 && visited2 1 && visited2 2 && visited2 3 then
        (pos, LEFT)
      else frightened_go gm width height pos prev rs visited2

/-- enemy::move: a frightened enemy random-walks; otherwise it recomputes
its target and takes the greedy step, the chosen direction landing in
prev_move. -/
def enemy_move (gm : Nat → Nat → Char) (width height : Nat) (e : Enemy)
    (pac : Player) (blinky : Enemy) (rand : List (Fin 4)) : Enemy :=
  if e.mode = FRIGHTENED then
    { e with
      pos := (frightened_go gm width height e.pos e.prev_move rand
        (fun _ => false)).1,
      prev_move := (frightened_go gm width height e.pos e.prev_move rand
        (fun _ => false)).2 }
  else
    { e with
      target := calculate_target e width height pac blinky,
      pos := (enemy_move_chase gm width height e.pos e.prev_move
        (calculate_target e width height pac blinky)).1,
      prev_move := (enemy_move_chase gm width height e.pos e.prev_move
        (calculate_target e width height pac blinky)).2 }

/-- The per-tick inputs of the main loop: the polled keystroke (if any) and
the random draws consumed by each ghost's frightened walk this tick. -/
structure TickInput where
  key : Option Char
  r1 : List (Fin 4)
  r2 : List (Fin 4)
  r3 : List (Fin 4)
  r4 : List (Fin 4)

/-- frameCount++ at the top of the loop body. -/
def inc_frame (s : GState) : GState := { s with frameCount := s.frameCount + 1 }

/-- Assign one mode to all four ghosts. -/
def set_all_modes (s : GState) (m : ENEMY_MODE) : GState :=
  { s with
    g1 := { s.g1 with mode := m }, g2 := { s.g2 with mode := m },
    g3 := { s.g3 with mode := m }, g4 := { s.g4 with mode := m } }

/-- The "if (secs == 7)" block: once the scatter phase has elapsed, every
tick resets all modes to NORMAL (before the frightened override below). -/
def secs_check (s : GState) : GState :=
  if s.secs = 7 then set_all_modes s NORMAL else s

/-- The "if (frightened_countdown != 0)" block: force all four modes to
FRIGHTENED and all glyphs to 'X'. -/
def frightened_check (s : GState) : GState :=
  if s.frightened_countdown ≠ 0 then
    { s with
      g1 := { s.g1 with mode := FRIGHTENED, icon := 'X' },
      g2 := { s.g2 with mode := FRIGHTENED, icon := 'X' },
      g3 := { s.g3 with mode := FRIGHTENED, icon := 'X' },
      g4 := { s.g4 with mode := FRIGHTENED, icon := 'X' } }
  else s

/-- The WASD decoding of the input switch. -/
def key_dir (k : Char) : Option DIRECTION :=
  if k = 'W' ∨ k = 'w' then some UP
  else if k = 'S' ∨ k = 's' then some DOWN
  else if k = 'A' ∨ k = 'a' then some LEFT
  else if k = 'D' ∨ k = 'd' then some RIGHT
  else none

/-- Direction carried by this tick's polled key, if any. -/
def input_dir (key : Option Char) : Option DIRECTION :=
  match key with
  | none => none
  | some k => key_dir k

/-- Store a new facing direction for the player. -/
def set_dir (s : GState) (d : DIRECTION) : GState :=
  { s with pacman := { s.pacman with direction := d } }

/-- The input section of the loop: in the win and lose branches the key (at
most a quit) changes no modelled state; otherwise a WASD key updates the
facing direction.  Quitting only stops the loop and is not part of the
per-tick state change. -/
def input_check (key : Option Char) (s : GState) : GState :=
  if s.pacman.score = s.pacman.max_score then s
  else if s.pacman.is_over = true then s
  else
    match input_dir key with
    | some d => set_dir s d
    | none => s

/-- The "if (frameCount == 60) frameCount = 0" reset. -/
def frame_reset (s : GState) : GState :=
  if s.frameCount = 60 then { s with frameCount := 0 } else s

/-- Restore the four personality glyphs (the countdown-expiry icon reset). -/
def restore_chars (s : GState) : GState :=
  { s with
    g1 := set_character s.g1 BLINKY, g2 := set_character s.g2 PINKY,
    g3 := set_character s.g3 INKY, g4 := set_character s.g4 CLYDE }

/-- The player's animation-frame advance (increment, wrapping 5 to 1). -/
def anim_step (p : Player) : Player :=
  if p.current_anim_frame + 1 = 5 then { p with current_anim_frame := 1 }
  else { p with current_anim_frame := p.current_anim_frame + 1 }

/-- The movement block of the loop body: the player moves first, then the
ghosts in order, each receiving the already-moved ghost1 as the blinky
argument (ghost1 receives itself, whose position is read before its own
update).  All moves read the game_map rendered by the previous tick's
update_map.  Template deduction makes width = HEIGHT and height = WIDTH. -/
def move_actors (inp : TickInput) (s : GState) : GState :=
  let p := anim_step (player_move s.game_map s.pacman)
  let e1 := enemy_move s.game_map HEIGHT WIDTH s.g1 p s.g1 inp.r1
  let e2 := enemy_move s.game_map HEIGHT WIDTH s.g2 p e1 inp.r2
  let e3 := enemy_move s.game_map HEIGHT WIDTH s.g3 p e1 inp.r3
  let e4 := enemy_move s.game_map HEIGHT WIDTH s.g4 p e1 inp.r4
  { s with pacman := p, g1 := e1, g2 := e2, g3 := e3, g4 := e4 }

/-- The secs++ of the timer block. -/
def inc_secs (s : GState) : GState := { s with secs := s.secs + 1 }

/-- The frightened_countdown-- of the timer block. -/
def dec_fcd (s : GState) : GState :=
  { s with frightened_countdown := s.frightened_countdown - 1 }

/-- The mode-tick bookkeeping at the end of the movement block: the first
branch (frameCount 0 and secs not yet 7) advances secs and, if armed,
decrements the frightened countdown, restoring glyphs and forcing NORMAL
when it reaches zero; the else-if branch (reachable only with secs = 7,
since frameCount 60 was already reset to 0) decrements the armed countdown
and restores only the glyphs on expiry. -/
def timer_step (s : GState) : GState :=
  if s.frameCount = 0 ∧ s.secs ≠ 7 then
    if s.frightened_countdown ≠ 0 then
      if s.frightened_countdown - 1 = 0 then
        set_all_modes (restore_chars (dec_fcd (inc_secs s))) NORMAL
      else dec_fcd (inc_secs s)
    else inc_secs s
  else if (s.frameCount = 0 ∨ s.frameCount = 60) ∧
      s.frightened_countdown ≠ 0 then
    if s.frightened_countdown - 1 = 0 then restore_chars (dec_fcd s)
    else dec_fcd s
  else s

/-- The cadence-gated block: every 10th frame, actors move and the mode-tick
bookkeeping runs. -/
def move_and_timers (inp : TickInput) (s : GState) : GState :=
  if s.frameCount % 10 = 0 then timer_step (move_actors inp s) else s

/-- The state of the loop body just before the movement/collision work:
frameCount incremented, the secs-7 reset and the frightened forcing applied,
input polled, and the frameCount-60 reset done. -/
def pre_move_state (inp : TickInput) (s : GState) : GState :=
  frame_reset (input_check inp.key (frightened_check (secs_check
    (inc_frame s))))

/-- Everything a tick does before update_map. -/
def pre_tick (inp : TickInput) (s : GState) : GState :=
  move_and_timers inp (pre_move_state inp s)

/-- One full iteration of the main loop (rendering aside, which touches no
modelled state). -/
def tick (inp : TickInput) (s : GState) : GState :=
  update_map HEIGHT (pre_tick inp s)

/-- Iterating the loop over a list of per-tick inputs. -/
def runTicks : List TickInput → GState → GState
  | [], s => s
  | i :: is, s => runTicks is (tick i s)

@[simp] theorem set_all_modes_pacman (s : GState) (m : ENEMY_MODE) :
    (set_all_modes s m).pacman = s.pacman := rfl

@[simp] theorem set_all_modes_game_vec (s : GState) (m : ENEMY_MODE) :
    (set_all_modes s m).game_vec = s.game_vec := rfl

@[simp] theorem set_all_modes_fcd (s : GState) (m : ENEMY_MODE) :
    (set_all_modes s m).frightened_countdown = s.frightened_countdown := rfl

@[simp] theorem set_all_modes_frameCount (s : GState) (m : ENEMY_MODE) :
    (set_all_modes s m).frameCount = s.frameCount := rfl

@[simp] theorem set_all_modes_secs (s : GState) (m : ENEMY_MODE) :
    (set_all_modes s m).secs = s.secs := rfl

@[simp] theorem inc_frame_pacman (s : GState) :
    (inc_frame s).pacman = s.pacman := rfl

@[simp] theorem inc_frame_game_vec (s : GState) :
    (inc_frame s).game_vec = s.game_vec := rfl

@[simp] theorem inc_frame_fcd (s : GState) :
    (inc_frame s).frightened_countdown = s.frightened_countdown := rfl

@[simp] theorem inc_frame_frameCount (s : GState) :
    (inc_frame s).frameCount = s.frameCount + 1 := rfl

@[simp] theorem inc_frame_secs (s : GState) : (inc_frame s).secs = s.secs := rfl

@[simp] theorem inc_frame_g1 (s : GState) : (inc_frame s).g1 = s.g1 := rfl

@[simp] theorem inc_frame_g2 (s : GState) : (inc_frame s).g2 = s.g2 := rfl

@[simp] theorem inc_frame_g3 (s : GState) : (inc_frame s).g3 = s.g3 := rfl

@[simp] theorem inc_frame_g4 (s : GState) : (inc_frame s).g4 = s.g4 := rfl

@[simp] theorem secs_check_pacman (s : GState) :
    (secs_check s).pacman = s.pacman := by
  unfold secs_check; split <;> rfl

@[simp] theorem secs_check_game_vec (s : GState) :
    (secs_check s).game_vec = s.game_vec := by
  unfold secs_check; split <;> rfl

@[simp] theorem secs_check_fcd (s : GState) :
    (secs_check s).frightened_countdown = s.frightened_countdown := by
  unfold secs_check; split <;> rfl

@[simp] theorem secs_check_frameCount (s : GState) :
    (secs_check s).frameCount = s.frameCount := by
  unfold secs_check; split <;> rfl

@[simp] theorem secs_check_secs (s : GState) : (secs_check s).secs = s.secs := by
  unfold secs_check; split <;> rfl

@[simp] theorem frightened_check_pacman (s : GState) :
    (frightened_check s).pacman = s.pacman := by
  unfold frightened_check; split <;> rfl

@[simp] theorem frightened_check_game_vec (s : GState) :
    (frightened_check s).game_vec = s.game_vec := by
  unfold frightened_check; split <;> rfl

@[simp] theorem frightened_check_fcd (s : GState) :
    (frightened_check s).frightened_countdown = s.frightened_countdown := by
  unfold frightened_check; split <;> rfl

@[simp] theorem frightened_check_frameCount (s : GState) :
    (frightened_check s).frameCount = s.frameCount := by
  unfold frightened_check; split <;> rfl

@[simp] theorem frightened_check_secs (s : GState) :
    (frightened_check s).secs = s.secs := by
  unfold frightened_check; split <;> rfl

@[simp] theorem input_check_g1 (k : Option Char) (s : GState) :
    (input_check k s).g1 = s.g1 := by
  unfold input_check
  split
  · rfl
  · split
    · rfl
    · cases input_dir k <;> rfl

@[simp] theorem input_check_g2 (k : Option Char) (s : GState) :
    (input_check k s).g2 = s.g2 := by
  unfold input_check
  split
  · rfl
  · split
    · rfl
    · cases input_dir k <;> rfl

@[simp] theorem input_check_g3 (k : Option Char) (s : GState) :
    (input_check k s).g3 = s.g3 := by
  unfold input_check
  split
  · rfl
  · split
    · rfl
    · cases input_dir k <;> rfl

@[simp] theorem input_check_g4 (k : Option Char) (s : GState) :
    (input_check k s).g4 = s.g4 := by
  unfold input_check
  split
  · rfl
  · split
    · rfl
    · cases input_dir k <;> rfl

@[simp] theorem input_check_game_vec (k : Option Char) (s : GState) :
    (input_check k s).game_vec = s.game_vec := by
  unfold input_check
  split
  · rfl
  · split
    · rfl
    · cases input_dir k <;> rfl

@[simp] theorem input_check_fcd (k : Option Char) (s : GState) :
    (input_check k s).frightened_countdown = s.frightened_countdown := by
  unfold input_check
  split
  · rfl
  · split
    · rfl
    · cases input_dir k <;> rfl

@[simp] theorem input_check_frameCount (k : Option Char) (s : GState) :
    (input_check k s).frameCount = s.frameCount := by
  unfold input_check
  split
  · rfl
  · split
    · rfl
    · cases input_dir k <;> rfl

@[simp] theorem input_check_secs (k : Option Char) (s : GState) :
    (input_check k s).secs = s.secs := by
  unfold input_check
  split
  · rfl
  · split
    · rfl
    · cases input_dir k <;> rfl

@[simp] theorem input_check_score (k : Option Char) (s : GState) :
    (input_check k s).pacman.score = s.pacman.score := by
  unfold input_check
  split
  · rfl
  · split
    · rfl
    · cases input_dir k <;> rfl

@[simp] theorem input_check_max (k : Option Char) (s : GState) :
    (input_check k s).pacman.max_score = s.pacman.max_score := by
  unfold input_check
  split
  · rfl
  · split
    · rfl
    · cases input_dir k <;> rfl

@[simp] theorem frame_reset_pacman (s : GState) :
    (frame_reset s).pacman = s.pacman := by
  unfold frame_reset; split <;> rfl

@[simp] theorem frame_reset_game_vec (s : GState) :
    (frame_reset s).game_vec = s.game_vec := by
  unfold frame_reset; split <;> rfl

@[simp] theorem frame_reset_fcd (s : GState) :
    (frame_reset s).frightened_countdown = s.frightened_countdown := by
  unfold frame_reset; split <;> rfl

@[simp] theorem frame_reset_secs (s : GState) :
    (frame_reset s).secs = s.secs := by
  unfold frame_reset; split <;> rfl

@[simp] theorem frame_reset_g1 (s : GState) : (frame_reset s).g1 = s.g1 := by
  unfold frame_reset; split <;> rfl

@[simp] theorem frame_reset_g2 (s : GState) : (frame_reset s).g2 = s.g2 := by
  unfold frame_reset; split <;> rfl

@[simp] theorem frame_reset_g3 (s : GState) : (frame_reset s).g3 = s.g3 := by
  unfold frame_reset; split <;> rfl

@[simp] theorem frame_reset_g4 (s : GState) : (frame_reset s).g4 = s.g4 := by
  unfold frame_reset; split <;> rfl

theorem frame_reset_frameCount (s : GState) :
    (frame_reset s).frameCount
      = if s.frameCount = 60 then 0 else s.frameCount := by
  unfold frame_reset
  split <;> rfl

@[simp] theorem player_move_score (gm : Nat → Nat → Char) (p : Player) :
    (player_move gm p).score = p.score := by
  unfold player_move; split <;> rfl

@[simp] theorem player_move_max (gm : Nat → Nat → Char) (p : Player) :
    (player_move gm p).max_score = p.max_score := by
  unfold player_move; split <;> rfl

@[simp] theorem anim_step_score (p : Player) :
    (anim_step p).score = p.score := by
  unfold anim_step; split <;> rfl

@[simp] theorem anim_step_max (p : Player) :
    (anim_step p).max_score = p.max_score := by
  unfold anim_step; split <;> rfl

@[simp] theorem enemy_move_mode (gm : Nat → Nat → Char) (width height : Nat)
    (e : Enemy) (pac : Player) (blinky : Enemy) (rand : List (Fin 4)) :
    (enemy_move gm width height e pac blinky rand).mode = e.mode := by
  unfold enemy_move; split <;> rfl

@[simp] theorem enemy_move_icon (gm : Nat → Nat → Char) (width height : Nat)
    (e : Enemy) (pac : Player) (blinky : Enemy) (rand : List (Fin 4)) :
    (enemy_move gm width height e pac blinky rand).icon = e.icon := by
  unfold enemy_move; split <;> rfl

@[simp] theorem move_actors_game_vec (inp : TickInput) (s : GState) :
    (move_actors inp s).game_vec = s.game_vec := rfl

@[simp] theorem move_actors_fcd (inp : TickInput) (s : GState) :
    (move_actors inp s).frightened_countdown = s.frightened_countdown := rfl

@[simp] theorem move_actors_frameCount (inp : TickInput) (s : GState) :
    (move_actors inp s).frameCount = s.frameCount := rfl

@[simp] theorem move_actors_secs (inp : TickInput) (s : GState) :
    (move_actors inp s).secs = s.secs := rfl

@[simp] theorem move_actors_score (inp : TickInput) (s : GState) :
    (move_actors inp s).pacman.score = s.pacman.score := by
  simp [move_actors]

@[simp] theorem move_actors_max (inp : TickInput) (s : GState) :
    (move_actors inp s).pacman.max_score = s.pacman.max_score := by
  simp [move_actors]

@[simp] theorem move_actors_g1_mode (inp : TickInput) (s : GState) :
    (move_actors inp s).g1.mode = s.g1.mode := by
  simp [move_actors]

@[simp] theorem move_actors_g2_mode (inp : TickInput) (s : GState) :
    (move_actors inp s).g2.mode = s.g2.mode := by
  simp [move_actors]

@[simp] theorem move_actors_g3_mode (inp : TickInput) (s : GState) :
    (move_actors inp s).g3.mode = s.g3.mode := by
  simp [move_actors]

@[simp] theorem move_actors_g4_mode (inp : TickInput) (s : GState) :
    (move_actors inp s).g4.mode = s.g4.mode := by
  simp [move_actors]

@[simp] theorem timer_step_pacman (s : GState) :
    (timer_step s).pacman = s.pacman := by
  unfold timer_step; split_ifs <;> rfl

@[simp] theorem timer_step_game_vec (s : GState) :
    (timer_step s).game_vec = s.game_vec := by
  unfold timer_step; split_ifs <;> rfl

@[simp] theorem inc_secs_fcd (s : GState) :
    (inc_secs s).frightened_countdown = s.frightened_countdown := rfl

@[simp] theorem inc_secs_secs (s : GState) : (inc_secs s).secs = s.secs + 1 := rfl

@[simp] theorem inc_secs_frameCount (s : GState) :
    (inc_secs s).frameCount = s.frameCount := rfl

@[simp] theorem dec_fcd_fcd (s : GState) :
    (dec_fcd s).frightened_countdown = s.frightened_countdown - 1 := rfl

@[simp] theorem dec_fcd_secs (s : GState) : (dec_fcd s).secs = s.secs := rfl

@[simp] theorem restore_chars_fcd (s : GState) :
    (restore_chars s).frightened_countdown = s.frightened_countdown := rfl

@[simp] theorem restore_chars_secs (s : GState) :
    (restore_chars s).secs = s.secs := rfl

@[simp] theorem restore_chars_g1_mode (s : GState) :
    (restore_chars s).g1.mode = s.g1.mode := rfl

@[simp] theorem restore_chars_g2_mode (s : GState) :
    (restore_chars s).g2.mode = s.g2.mode := rfl

@[simp] theorem restore_chars_g3_mode (s : GState) :
    (restore_chars s).g3.mode = s.g3.mode := rfl

@[simp] theorem restore_chars_g4_mode (s : GState) :
    (restore_chars s).g4.mode = s.g4.mode := rfl

@[simp] theorem set_all_modes_g1_mode (s : GState) (m : ENEMY_MODE) :
    (set_all_modes s m).g1.mode = m := rfl

@[simp] theorem set_all_modes_g2_mode (s : GState) (m : ENEMY_MODE) :
    (set_all_modes s m).g2.mode = m := rfl

@[simp] theorem set_all_modes_g3_mode (s : GState) (m : ENEMY_MODE) :
    (set_all_modes s m).g3.mode = m := rfl

@[simp] theorem set_all_modes_g4_mode (s : GState) (m : ENEMY_MODE) :
    (set_all_modes s m).g4.mode = m := rfl

/-- The frightened forcing: whenever the countdown is nonzero at the top of
a tick, all four modes are FRIGHTENED and all four glyphs 'X' in the state
handed to the movement block. -/
theorem forced_modes (inp : TickInput) (s : GState)
    (h : s.frightened_countdown ≠ 0) :
    (pre_move_state inp s).g1.mode = FRIGHTENED ∧
    (pre_move_state inp s).g2.mode = FRIGHTENED ∧
    (pre_move_state inp s).g3.mode = FRIGHTENED ∧
    (pre_move_state inp s).g4.mode = FRIGHTENED ∧
    (pre_move_state inp s).g1.icon = 'X' ∧
    (pre_move_state inp s).g2.icon = 'X' ∧
    (pre_move_state inp s).g3.icon = 'X' ∧
    (pre_move_state inp s).g4.icon = 'X' := by
  refine ⟨?_, ?_, ?_, ?_, ?_, ?_, ?_, ?_⟩ <;>
    simp [pre_move_state, frightened_check, h]

/-- When its first condition is false and the countdown is zero, the timer
block does nothing. -/
theorem timer_step_noop (s : GState)
    (h1 : ¬(s.frameCount = 0 ∧ s.secs ≠ 7))
    (h2 : s.frightened_countdown = 0) : timer_step s = s := by
  unfold timer_step
  rw [if_neg h1, if_neg (by simp [h2])]

theorem ccount_set_eaten :
    ∀ (l : List Char) (j : Nat) (a : Char),
      l.getD j ' ' = a → a ≠ ' ' → ccount a (l.set j ' ') + 1 = ccount a l := by
  intro l
  induction l with
  | nil =>
      intro j a hj ha
      exact absurd hj.symm ha
  | cons x xs ih =>
      intro j a hj ha
      cases j with
      | zero =>
          have hx : x = a := hj
          show ccount a (' ' :: xs) + 1 = ccount a (x :: xs)
          show ((if ' ' = a then 1 else 0) + ccount a xs) + 1
            = (if x = a then 1 else 0) + ccount a xs
          rw [if_neg (Ne.symm ha), if_pos hx]
          omega
      | succ j =>
          show ccount a (x :: xs.set j ' ') + 1 = ccount a (x :: xs)
          show ((if x = a then 1 else 0) + ccount a (xs.set j ' ')) + 1
            = (if x = a then 1 else 0) + ccount a xs
          rw [Nat.add_assoc, ih j a hj ha]

theorem ccount_set_other :
    ∀ (l : List Char) (j : Nat) (a b : Char),
      l.getD j ' ' = b → a ≠ b → a ≠ ' ' →
      ccount a (l.set j ' ') = ccount a l := by
  intro l
  induction l with
  | nil => intro j a b hj hab ha; rfl
  | cons x xs ih =>
      intro j a b hj hab ha
      cases j with
      | zero =>
          have hx : x = b := hj
          show ccount a (' ' :: xs) = ccount a (x :: xs)
          show (if ' ' = a then 1 else 0) + ccount a xs
            = (if x = a then 1 else 0) + ccount a xs
          rw [if_neg (Ne.symm ha), if_neg (fun h => hab (h.symm.trans hx))]
      | succ j =>
          show ccount a (x :: xs.set j ' ') = ccount a (x :: xs)
          show (if x = a then 1 else 0) + ccount a (xs.set j ' ')
            = (if x = a then 1 else 0) + ccount a xs
          rw [ih j a b hj hab ha]

@[simp] theorem totCount_nil (c : Char) : totCount c [] = 0 := rfl

@[simp] theorem totCount_cons (c : Char) (l : List Char)
    (ls : List (List Char)) :
    totCount c (l :: ls) = ccount c l + totCount c ls := by
  simp [totCount]

theorem totCount_setCell_eaten :
    ∀ (gv : List (List Char)) (i j : Nat) (a : Char),
      (gv.getD i []).getD j ' ' = a → a ≠ ' ' →
      totCount a (setCell gv (i, j) ' ') + 1 = totCount a gv := by
  intro gv
  induction gv with
  | nil =>
      intro i j a hj ha
      exact absurd hj.symm ha
  | cons r rs ih =>
      intro i j a hj ha
      cases i with
      | zero =>
          show totCount a ((r.set j ' ') :: rs) + 1 = totCount a (r :: rs)
          rw [totCount_cons, totCount_cons, Nat.add_right_comm,
            ccount_set_eaten r j a hj ha]
      | succ i =>
          show totCount a (r :: setCell rs (i, j) ' ') + 1
            = totCount a (r :: rs)
          rw [totCount_cons, totCount_cons, Nat.add_assoc, ih i j a hj ha]

theorem totCount_setCell_other :
    ∀ (gv : List (List Char)) (i j : Nat) (a b : Char),
      (gv.getD i []).getD j ' ' = b → a ≠ b → a ≠ ' ' →
      totCount a (setCell gv (i, j) ' ') = totCount a gv := by
  intro gv
  induction gv with
  | nil => intro i j a b hj hab ha; rfl
  | cons r rs ih =>
      intro i j a b hj hab ha
      cases i with
      | zero =>
          show totCount a ((r.set j ' ') :: rs) = totCount a (r :: rs)
          rw [totCount_cons, totCount_cons,
            ccount_set_other r j a b hj hab ha]
      | succ i =>
          show totCount a (r :: setCell rs (i, j) ' ') = totCount a (r :: rs)
          rw [totCount_cons, totCount_cons, ih i j a b hj hab ha]

/-- A non-blank cell seen through base_map really is stored at that spot of
the persistent layer. -/
theorem base_map_hit (gv : List (List Char)) (width i j : Nat) (c : Char)
    (h : base_map gv width i j = c) (hc : c ≠ ' ') :
    (gv.getD i []).getD j ' ' = c := by
  unfold base_map at h
  split at h
  · exact h
  · exact absurd h.symm hc

/-- When its frame counter is neither 0 nor 60, the timer block does
nothing. -/
theorem timer_step_noop2 (s : GState) (h1 : s.frameCount ≠ 0)
    (h2 : s.frameCount ≠ 60) : timer_step s = s := by
  unfold timer_step
  rw [if_neg (fun hc => h1 hc.1), if_neg (fun hc => hc.1.elim h1 h2)]

theorem pre_move_state_frameCount (inp : TickInput) (s : GState) :
    (pre_move_state inp s).frameCount
      = if s.frameCount + 1 = 60 then 0 else s.frameCount + 1 := by
  simp [pre_move_state, frame_reset_frameCount]

theorem pre_move_state_fcd (inp : TickInput) (s : GState) :
    (pre_move_state inp s).frightened_countdown = s.frightened_countdown := by
  simp [pre_move_state]

theorem pre_move_state_secs (inp : TickInput) (s : GState) :
    (pre_move_state inp s).secs = s.secs := by
  simp [pre_move_state]

/-- The exact once-per-mode-tick decrement law: over the whole pre-update
part of a tick, the frightened countdown drops by exactly one when the tick
crosses the 60-frame boundary (frameCount was 59) while armed, and is
untouched otherwise.  In particular the two decrement branches of the source
never fire together: they sit in an if/else-if, and the tick-60 test of the
second branch can never be true because frameCount is reset to 0 earlier. -/
theorem pre_tick_fcd (inp : TickInput) (s : GState) :
    (pre_tick inp s).frightened_countdown
      = if s.frameCount = 59 ∧ s.frightened_countdown ≠ 0
        then s.frightened_countdown - 1 else s.frightened_countdown := by
  have hPf := pre_move_state_frameCount inp s
  have hPc := pre_move_state_fcd inp s
  have hPs := pre_move_state_secs inp s
  by_cases h59 : s.frameCount = 59
  · have hPf0 : (pre_move_state inp s).frameCount = 0 := by
      rw [hPf]; simp [h59]
    unfold pre_tick move_and_timers
    rw [hPf0, if_pos (by norm_num)]
    by_cases hs7 : s.secs = 7
    · by_cases hcd : s.frightened_countdown = 0
      · rw [timer_step_noop _ (by simp [hPs, hs7]) (by simp [hPc, hcd])]
        simp [hPc, hcd]
      · unfold timer_step
        rw [if_neg (by simp [hPs, hs7]),
          if_pos ⟨Or.inl (by simp [hPf0]), by simp [hPc, hcd]⟩]
        simp only [if_pos (And.intro h59 hcd)]
        split <;> simp [hPc]
    · unfold timer_step
      rw [if_pos ⟨by simp [hPf0], by simp [hPs, hs7]⟩]
      by_cases hcd : s.frightened_countdown = 0
      · rw [if_neg (by simp [hPc, hcd])]
        simp [hPc, hcd]
      · rw [if_pos (by simp [hPc, hcd])]
        simp only [if_pos (And.intro h59 hcd)]
        split <;> simp [hPc]
  · have h60 : ¬(s.frameCount + 1 = 60) := by omega
    have hPf1 : (pre_move_state inp s).frameCount = s.frameCount + 1 := by
      rw [hPf]; simp [h60]
    unfold pre_tick move_and_timers
    rw [hPf1]
    by_cases h10 : (s.frameCount + 1) % 10 = 0
    · rw [if_pos h10,
        timer_step_noop2 _ (by simp [hPf1]) (by simp [hPf1]; omega)]
      simp [hPc, h59]
    · rw [if_neg h10]
      simp [hPc, h59]

/-- update_map arms the frightened countdown at 10 exactly when the player's
cell holds a power pellet, and leaves it alone otherwise. -/
theorem update_map_fcd (width : Nat) (s : GState) :
    (update_map width s).frightened_countdown
      = if base_map s.game_vec width s.pacman.pos.1 s.pacman.pos.2 = '@'
        then 10 else s.frightened_countdown := by
  have h : (update_map width s).frightened_countdown
      = (eat_upd width s).frightened_countdown := by
    simp [update_map, collision_upd]
  rw [h]
  unfold eat_upd
  split_ifs with h1 h2 h3 h4 <;> simp_all

/-- Claim C8 (amended): eating a power pellet arms the frightened countdown
at 10 mode ticks; the countdown is decremented exactly once per mode tick
(when the 60-render-tick boundary is crossed while armed), NOT twice: the
two decrement conditions of the source are mutually exclusive branches of an
if/else-if and the tick-60 test is unreachable since frameCount was reset to
0 beforehand.  When the decrement reaches 0 with secs below 7 the enemies
leave Frightened mode in the same tick; when it reaches 0 with secs already
7, they leave it at the latest in the next tick through the secs-7 reset
that runs while the countdown is 0. -/
theorem C8_frightened_timer :
    (∀ (width : Nat) (s : GState),
      (update_map width s).frightened_countdown
        = if base_map s.game_vec width s.pacman.pos.1 s.pacman.pos.2 = '@'
          then 10 else s.frightened_countdown) ∧
    (∀ (inp : TickInput) (s : GState),
      (pre_tick inp s).frightened_countdown
        = if s.frameCount = 59 ∧ s.frightened_countdown ≠ 0
          then s.frightened_countdown - 1 else s.frightened_countdown) ∧
    (∀ (inp : TickInput) (s : GState),
      tick inp s = update_map HEIGHT (pre_tick inp s)) ∧
    (∀ (inp : TickInput) (s : GState),
      s.frameCount = 59 → s.frightened_countdown = 1 → s.secs ≠ 7 →
      (pre_tick inp s).g1.mode = NORMAL ∧ (pre_tick inp s).g2.mode = NORMAL ∧
      (pre_tick inp s).g3.mode = NORMAL ∧ (pre_tick inp s).g4.mode = NORMAL) ∧
    (∀ (inp : TickInput) (s : GState),
      s.secs = 7 → s.frightened_countdown = 0 →
      (pre_tick inp s).g1.mode = NORMAL ∧ (pre_tick inp s).g2.mode = NORMAL ∧
      (pre_tick inp s).g3.mode = NORMAL ∧ (pre_tick inp s).g4.mode = NORMAL) := by
  refine ⟨update_map_fcd, pre_tick_fcd, fun inp s => rfl, ?_, ?_⟩
  · intro inp s h59 hcd hs7
    have hPf0 : (pre_move_state inp s).frameCount = 0 := by
      rw [pre_move_state_frameCount]; simp [h59]
    have hPs := pre_move_state_secs inp s
    have hPc : (pre_move_state inp s).frightened_countdown = 1 := by
      rw [pre_move_state_fcd, hcd]
    unfold pre_tick move_and_timers
    rw [hPf0, if_pos (by norm_num)]
    unfold timer_step
    rw [if_pos ⟨by simp [hPf0], by simp [hPs, hs7]⟩,
      if_pos (by simp [hPc]), if_pos (by simp [hPc])]
    exact ⟨rfl, rfl, rfl, rfl⟩
  · intro inp s hs7 hcd
    have hP1 : (pre_move_state inp s).g1.mode = NORMAL := by
      simp [pre_move_state, frightened_check, secs_check, hcd, hs7]
    have hP2 : (pre_move_state inp s).g2.mode = NORMAL := by
      simp [pre_move_state, frightened_check, secs_check, hcd, hs7]
    have hP3 : (pre_move_state inp s).g3.mode = NORMAL := by
      simp [pre_move_state, frightened_check, secs_check, hcd, hs7]
    have hP4 : (pre_move_state inp s).g4.mode = NORMAL := by
      simp [pre_move_state, frightened_check, secs_check, hcd, hs7]
    have hPs7 : (pre_move_state inp s).secs = 7 := by
      rw [pre_move_state_secs, hs7]
    have hPc : (pre_move_state inp s).frightened_countdown = 0 := by
      rw [pre_move_state_fcd, hcd]
    unfold pre_tick move_and_timers
    by_cases h10 : (pre_move_state inp s).frameCount % 10 = 0
    · rw [if_pos h10,
        timer_step_noop _ (by simp [hPs7]) (by simp [hPc])]
      refine ⟨?_, ?_, ?_, ?_⟩ <;> simp [hP1, hP2, hP3, hP4]
    · rw [if_neg h10]
      exact ⟨hP1, hP2, hP3, hP4⟩

/-- Fixed per-tick input for concrete runs: no key, each ghost draws
candidate index 0 first. -/
def inp0 : TickInput := { key := none, r1 := [0], r2 := [0], r3 := [0], r4 := [0] }

/-- Concrete state one render tick before the 60-frame boundary, with the
frightened countdown at 5 and secs at 3. -/
def c8x : GState :=
  { game_vec := [[' ']],
    pacman := { pos := (0, 0), direction := DOWN },
    g1 := { pos := (5, 5), icon := 'B', character := BLINKY, mode := NORMAL,
            prev_move := UP, target := (0, 0) },
    g2 := { pos := (5, 6), icon := 'P', character := PINKY, mode := NORMAL,
            prev_move := UP, target := (0, 0) },
    g3 := { pos := (5, 7), icon := 'I', character := INKY, mode := NORMAL,
            prev_move := UP, target := (0, 0) },
    g4 := { pos := (5, 8), icon := 'C', character := CLYDE, mode := NORMAL,
            prev_move := UP, target := (0, 0) },
    frightened_countdown := 5,
    frameCount := 59,
    secs := 3,
    game_map := fun _ _ => ' ' }

/-- Claim C8, counterexample: on the tick that crosses both the tick-60 and
the tick-0 boundary (frameCount 59 to 60 to 0), the countdown drops from 5
to 4, a single decrement, not the double decrement to 3 the claim describes
for that situation. -/
theorem C8_double_decrement_cex :
    (tick inp0 c8x).frightened_countdown = 4 ∧ (4 : Nat) ≠ 3 := by
  refine ⟨by decide, by decide⟩

/-- The boundary state with the countdown at its last mode tick. -/
def c8w : GState := { c8x with frightened_countdown := 1 }

/-- Witness for the amended claim C8: a concrete boundary tick whose
decrement reaches 0 with secs below 7 puts all four enemies back in NORMAL
mode within the same tick. -/
theorem C8_frightened_timer_witness :
    (pre_tick inp0 c8w).g1.mode = NORMAL ∧
    (pre_tick inp0 c8w).g2.mode = NORMAL ∧
    (pre_tick inp0 c8w).g3.mode = NORMAL ∧
    (pre_tick inp0 c8w).g4.mode = NORMAL :=
  C8_frightened_timer.2.2.2.1 inp0 c8w rfl rfl (by decide)

/-- Claim C10: at the start of every tick whose frightened countdown is
nonzero, all four enemy modes are forced to FRIGHTENED and all glyphs to
'X' in the state handed to the movement block, which runs before update_map
and its collision resolution (the tick is literally that composition);
consequently an enemy whose mode became NORMAL by being eaten during a tick
that leaves the countdown nonzero is in FRIGHTENED mode again at the
movement phase of the following tick. -/
theorem C10_frightened_forcing :
    (∀ (inp : TickInput) (s : GState), s.frightened_countdown ≠ 0 →
      (pre_move_state inp s).g1.mode = FRIGHTENED ∧
      (pre_move_state inp s).g2.mode = FRIGHTENED ∧
      (pre_move_state inp s).g3.mode = FRIGHTENED ∧
      (pre_move_state inp s).g4.mode = FRIGHTENED ∧
      (pre_move_state inp s).g1.icon = 'X' ∧
      (pre_move_state inp s).g2.icon = 'X' ∧
      (pre_move_state inp s).g3.icon = 'X' ∧
      (pre_move_state inp s).g4.icon = 'X') ∧
    (∀ (inp : TickInput) (s : GState),
      tick inp s
        = update_map HEIGHT (move_and_timers inp (pre_move_state inp s))) ∧
    (∀ (inp inp2 : TickInput) (s : GState),
      (tick inp s).frightened_countdown ≠ 0 →
      (pre_move_state inp2 (tick inp s)).g1.mode = FRIGHTENED ∧
      (pre_move_state inp2 (tick inp s)).g2.mode = FRIGHTENED ∧
      (pre_move_state inp2 (tick inp s)).g3.mode = FRIGHTENED ∧
      (pre_move_state inp2 (tick inp s)).g4.mode = FRIGHTENED) := by
  refine ⟨fun inp s h => forced_modes inp s h, fun inp s => rfl, ?_⟩
  intro inp inp2 s h
  have h2 := forced_modes inp2 (tick inp s) h
  exact ⟨h2.1, h2.2.1, h2.2.2.1, h2.2.2.2.1⟩

/-- Witness for claim C10 at a concrete state with countdown 3: all modes
are FRIGHTENED and all glyphs 'X' entering the movement block. -/
theorem C10_frightened_forcing_witness :
    (pre_move_state inp0 c4w).g1.mode = FRIGHTENED ∧
    (pre_move_state inp0 c4w).g2.mode = FRIGHTENED ∧
    (pre_move_state inp0 c4w).g3.mode = FRIGHTENED ∧
    (pre_move_state inp0 c4w).g4.mode = FRIGHTENED ∧
    (pre_move_state inp0 c4w).g1.icon = 'X' ∧
    (pre_move_state inp0 c4w).g2.icon = 'X' ∧
    (pre_move_state inp0 c4w).g3.icon = 'X' ∧
    (pre_move_state inp0 c4w).g4.icon = 'X' :=
  C10_frightened_forcing.1 inp0 c4w (by decide)

theorem totCount_setCell_eaten_pos (gv : List (List Char)) (pos : Nat × Nat)
    (a : Char) (h : (gv.getD pos.1 []).getD pos.2 ' ' = a) (ha : a ≠ ' ') :
    totCount a (setCell gv pos ' ') + 1 = totCount a gv := by
  obtain ⟨i, j⟩ := pos
  exact totCount_setCell_eaten gv i j a h ha

theorem totCount_setCell_other_pos (gv : List (List Char)) (pos : Nat × Nat)
    (a b : Char) (h : (gv.getD pos.1 []).getD pos.2 ' ' = b) (hab : a ≠ b)
    (ha : a ≠ ' ') :
    totCount a (setCell gv pos ' ') = totCount a gv := by
  obtain ⟨i, j⟩ := pos
  exact totCount_setCell_other gv i j a b h hab ha

/-- The value bookkeeping of one update_map: max_score is untouched; the
score plus the value still lying in the persistent layer is conserved; the
score never drops and the pellet and power-pellet counts never grow. -/
theorem update_map_counts (width : Nat) (s : GState) :
    (update_map width s).pacman.max_score = s.pacman.max_score ∧
    (update_map width s).pacman.score
        + 10 * totCount '.' (update_map width s).game_vec
        + 50 * totCount '@' (update_map width s).game_vec
      = s.pacman.score + 10 * totCount '.' s.game_vec
        + 50 * totCount '@' s.game_vec ∧
    s.pacman.score ≤ (update_map width s).pacman.score ∧
    totCount '.' (update_map width s).game_vec ≤ totCount '.' s.game_vec ∧
    totCount '@' (update_map width s).game_vec ≤ totCount '@' s.game_vec := by
  have hsc : (update_map width s).pacman.score
      = (eat_upd width s).pacman.score := by
    simp [update_map, collision_upd]
  have hmx : (update_map width s).pacman.max_score
      = (eat_upd width s).pacman.max_score := by
    simp [update_map, collision_upd]
  have hgv : (update_map width s).game_vec = (eat_upd width s).game_vec := by
    simp [update_map, collision_upd]
  rw [hsc, hmx, hgv]
  unfold eat_upd
  split_ifs with h1 h2 h3 h4
  · have hcell := base_map_hit s.game_vec width s.pacman.pos.1
      s.pacman.pos.2 '.' h1 (by decide)
    have e1 := totCount_setCell_eaten_pos s.game_vec s.pacman.pos '.'
      hcell (by decide)
    have e2 := totCount_setCell_other_pos s.game_vec s.pacman.pos '@' '.'
      hcell (by decide) (by decide)
    refine ⟨rfl, ?_, ?_, ?_, ?_⟩
    · show s.pacman.score + 10
          + 10 * totCount '.' (setCell s.game_vec s.pacman.pos ' ')
          + 50 * totCount '@' (setCell s.game_vec s.pacman.pos ' ')
        = s.pacman.score + 10 * totCount '.' s.game_vec
          + 50 * totCount '@' s.game_vec
      omega
    · show s.pacman.score ≤ s.pacman.score + 10
      omega
    · show totCount '.' (setCell s.game_vec s.pacman.pos ' ')
        ≤ totCount '.' s.game_vec
      omega
    · show totCount '@' (setCell s.game_vec s.pacman.pos ' ')
        ≤ totCount '@' s.game_vec
      omega
  · have hcell := base_map_hit s.game_vec width s.pacman.pos.1
      s.pacman.pos.2 '@' h2 (by decide)
    have e1 := totCount_setCell_eaten_pos s.game_vec s.pacman.pos '@'
      hcell (by decide)
    have e2 := totCount_setCell_other_pos s.game_vec s.pacman.pos '.' '@'
      hcell (by decide) (by decide)
    refine ⟨rfl, ?_, ?_, ?_, ?_⟩
    · show s.pacman.score + 50
          + 10 * totCount '.' (setCell s.game_vec s.pacman.pos ' ')
          + 50 * totCount '@' (setCell s.game_vec s.pacman.pos ' ')
        = s.pacman.score + 10 * totCount '.' s.game_vec
          + 50 * totCount '@' s.game_vec
      omega
    · show s.pacman.score ≤ s.pacman.score + 50
      omega
    · show totCount '.' (setCell s.game_vec s.pacman.pos ' ')
        ≤ totCount '.' s.game_vec
      omega
    · show totCount '@' (setCell s.game_vec s.pacman.pos ' ')
        ≤ totCount '@' s.game_vec
      omega
  · exact ⟨rfl, rfl, le_refl _, le_refl _, le_refl _⟩
  · exact ⟨rfl, rfl, le_refl _, le_refl _, le_refl _⟩
  · exact ⟨rfl, rfl, le_refl _, le_refl _, le_refl _⟩

/-- The value bookkeeping of one full tick (only update_map touches score
and the persistent layer). -/
theorem tick_counts (inp : TickInput) (s : GState) :
    (tick inp s).pacman.max_score = s.pacman.max_score ∧
    (tick inp s).pacman.score
        + 10 * totCount '.' (tick inp s).game_vec
        + 50 * totCount '@' (tick inp s).game_vec
      = s.pacman.score + 10 * totCount '.' s.game_vec
        + 50 * totCount '@' s.game_vec ∧
    s.pacman.score ≤ (tick inp s).pacman.score ∧
    totCount '.' (tick inp s).game_vec ≤ totCount '.' s.game_vec ∧
    totCount '@' (tick inp s).game_vec ≤ totCount '@' s.game_vec := by
  have hp1 : (pre_tick inp s).pacman.score = s.pacman.score := by
    unfold pre_tick move_and_timers
    split <;> simp [pre_move_state]
  have hp2 : (pre_tick inp s).pacman.max_score = s.pacman.max_score := by
    unfold pre_tick move_and_timers
    split <;> simp [pre_move_state]
  have hp3 : (pre_tick inp s).game_vec = s.game_vec := by
    unfold pre_tick move_and_timers
    split <;> simp [pre_move_state]
  have hu := update_map_counts HEIGHT (pre_tick inp s)
  rw [hp1, hp2, hp3] at hu
  have ht : tick inp s = update_map HEIGHT (pre_tick inp s) := rfl
  rw [ht]
  exact hu

/-- The value bookkeeping over any run of ticks. -/
theorem runTicks_counts (inps : List TickInput) (s : GState) :
    (runTicks inps s).pacman.max_score = s.pacman.max_score ∧
    (runTicks inps s).pacman.score
        + 10 * totCount '.' (runTicks inps s).game_vec
        + 50 * totCount '@' (runTicks inps s).game_vec
      = s.pacman.score + 10 * totCount '.' s.game_vec
        + 50 * totCount '@' s.game_vec ∧
    s.pacman.score ≤ (runTicks inps s).pacman.score ∧
    totCount '.' (runTicks inps s).game_vec ≤ totCount '.' s.game_vec ∧
    totCount '@' (runTicks inps s).game_vec ≤ totCount '@' s.game_vec := by
  induction inps generalizing s with
  | nil => exact ⟨rfl, rfl, le_refl _, le_refl _, le_refl _⟩
  | cons i is ih =>
      have h1 := tick_counts i s
      have h2 := ih (tick i s)
      have hr : runTicks (i :: is) s = runTicks is (tick i s) := by
        rw [runTicks]
      rw [hr]
      exact ⟨h2.1.trans h1.1, h2.2.1.trans h1.2.1,
        le_trans h1.2.2.1 h2.2.2.1,
        le_trans h2.2.2.2.1 h1.2.2.2.1,
        le_trans h2.2.2.2.2 h1.2.2.2.2⟩

/-- Claim C5: across every sequence of ticks from a start state with score 0
and max_score equal to the total pellet value of the persistent layer, the
score plus the remaining layer value always equals max_score; pellet counts
only shrink (an eaten pellet is removed permanently, so revisiting a cell
never re-awards); the score equals 10 times the pellets eaten plus 50 times
the power pellets eaten, is monotonically non-decreasing along the run, and
never exceeds max_score. -/
theorem C5_score_invariant (inps pre2 suf : List TickInput) (s0 : GState)
    (hsplit : inps = pre2 ++ suf)
    (hscore : s0.pacman.score = 0)
    (hmax : s0.pacman.max_score
      = 10 * totCount '.' s0.game_vec + 50 * totCount '@' s0.game_vec) :
    (runTicks inps s0).pacman.score
        + 10 * totCount '.' (runTicks inps s0).game_vec
        + 50 * totCount '@' (runTicks inps s0).game_vec
      = s0.pacman.max_score ∧
    totCount '.' (runTicks inps s0).game_vec ≤ totCount '.' s0.game_vec ∧
    totCount '@' (runTicks inps s0).game_vec ≤ totCount '@' s0.game_vec ∧
    (runTicks inps s0).pacman.score
      = 10 * (totCount '.' s0.game_vec
          - totCount '.' (runTicks inps s0).game_vec)
        + 50 * (totCount '@' s0.game_vec
          - totCount '@' (runTicks inps s0).game_vec) ∧
    (runTicks pre2 s0).pacman.score ≤ (runTicks inps s0).pacman.score ∧
    (runTicks inps s0).pacman.score ≤ (runTicks inps s0).pacman.max_score ∧
    (runTicks inps s0).pacman.max_score = s0.pacman.max_score := by
  have h := runTicks_counts inps s0
  have hsuf := runTicks_counts suf (runTicks pre2 s0)
  have happ : runTicks inps s0 = runTicks suf (runTicks pre2 s0) := by
    rw [hsplit]
    clear hscore hmax hsplit h hsuf
    induction pre2 generalizing s0 with
    | nil => rw [runTicks, List.nil_append]
    | cons i is ih =>
        rw [List.cons_append, runTicks, runTicks, ih]
  refine ⟨?_, h.2.2.2.1, h.2.2.2.2, ?_, ?_, ?_, h.1⟩
  · have e := h.2.1
    omega
  · have e := h.2.1
    have d := h.2.2.2.1
    have a := h.2.2.2.2
    omega
  · rw [happ]
    exact hsuf.2.2.1
  · have e := h.2.1
    have hm := h.1
    omega

/-- Concrete start state for the C5 witness: one pellet, max_score 10. -/
def c5s : GState :=
  { game_vec := [['.']],
    pacman := { pos := (0, 0), direction := DOWN, score := 0,
                max_score := 10 },
    g1 := { pos := (5, 5), icon := 'B', character := BLINKY, mode := NORMAL,
            prev_move := UP, target := (0, 0) },
    g2 := { pos := (5, 6), icon := 'P', character := PINKY, mode := NORMAL,
            prev_move := UP, target := (0, 0) },
    g3 := { pos := (5, 7), icon := 'I', character := INKY, mode := NORMAL,
            prev_move := UP, target := (0, 0) },
    g4 := { pos := (5, 8), icon := 'C', character := CLYDE, mode := NORMAL,
            prev_move := UP, target := (0, 0) },
    frightened_countdown := 0,
    frameCount := 0,
    secs := 0,
    game_map := fun _ _ => ' ' }

/-- Witness for claim C5: after one concrete tick in which the player eats
the only pellet, the score still does not exceed max_score. -/
theorem C5_score_invariant_witness :
    (runTicks [inp0] c5s).pacman.score
      ≤ (runTicks [inp0] c5s).pacman.max_score ∧
    c5s.pacman.score = 0 :=
  ⟨(C5_score_invariant [inp0] [] [inp0] c5s rfl rfl
      (by decide)).2.2.2.2.2.1, rfl⟩

end Pacman
